import Mathlib

/-!
Verification development for the Pointy tooltip-orchestration engine
(src/src/pointy.js).  The definitions below are a shallow embedding of the
engine's state machine: DOM creation, CSS/SVG styling and pixel geometry are
external collaborators (per the specification's scope) and are not modelled;
everything that touches indices, timers, flags and the event fabric is
translated field by field from the JavaScript source.

Conventions of the embedding:
 * JavaScript `null`-able numbers become `Option Nat`; JS truthiness of such
   a value (`null` and `0` are falsy) is `truthyN`.
 * `setTimeout`/`setInterval`/`requestAnimationFrame` are modelled by a list
   of pending `Timer`s plus a fresh-id counter.  Browser timer ids are
   positive, so the counter starts at 1 (the source tests ids for truthiness).
 * `_emit` appends to an event log carried in the state; the dispatch order
   of the bus itself (exact / group / wildcard listeners) is modelled
   separately over an abstract listener table.
 * timestamps are `Nat` milliseconds; y-coordinates from
   `getBoundingClientRect` are `Int` pixels (the source uses binary floating
   point; the engine only subtracts and order-compares these values, and the
   claims are about the integral thresholds 30px / 200ms / 300ms).
-/

namespace PointyM

/-- Opaque reference to a resolved DOM element (an `ElementRef`). -/
abbrev Target := Nat

/-- Manual pointing direction, the runtime only compares against the string
`up` (any other string behaves like `down`, see `updatePosition`). -/
inductive Dir
  | up
  | down
deriving DecidableEq, Repr

/-- The `source` field of the `complete` / `autoHide` payloads. -/
inductive Source
  | autoplay
  | manual
deriving DecidableEq, Repr

/-- A step's `content`: a single message or an ordered list
(`Array.isArray(content) ? content : [content]`). -/
inductive ContentU
  | one (s : String)
  | many (l : List String)
deriving DecidableEq, Repr

/-- `Array.isArray(content) ? content : [content]`. -/
def normalizeContent : ContentU → List String
  | .one s => [s]
  | .many l => l

/-- A tour step; `target` is already resolved (`Pointy.getTargetElement` may
yield `null`, hence the `Option`). -/
structure Step where
  target : Option Target
  content : ContentU
  direction : Option Dir := none
  duration : Option Nat := none
deriving DecidableEq, Repr

/-- JS truthiness of a nullable millisecond value: `null` and `0` are falsy. -/
def truthyN : Option Nat → Bool
  | none => false
  | some n => n != 0

/-- What a pending timer will do when it fires; the auto-hide timer carries
the payload (`delay`, `source`) that its closure will emit with `autoHide`. -/
inductive TimerKind
  | autoplayAdvance (duration : Nat)
  | autoplayAfterMessages
  | hideOnCompleteFire (delay : Nat) (source : Source)
  | messageCycle (interval : Nat)
  | moveSettle
  | resetSettle
  | restartSettle
  | pointToSettle
  | introFade (isFirstStepStart : Bool)
  | bubbleReveal
  | domOnly
  | trackingFrame
deriving DecidableEq, Repr

/-- One entry of the host's timer queue: its id (as returned by
`setTimeout` / `setInterval` / `requestAnimationFrame`), what it does, and
the delay it was scheduled with. -/
structure Timer where
  id : Nat
  kind : TimerKind
  delay : Nat
deriving DecidableEq, Repr

/-- One record of the emitted-event log.  All payloads are elided except the
`autoHide` one, whose `delay`/`source` fields claims reason about. -/
inductive Ev
  | named (name : String)
  | autoHide (delay : Nat) (source : Source)
deriving DecidableEq, Repr

end PointyM

namespace PointyM

/-- The part of the browser environment an operation reads: the tracked
target's document y-coordinate (`getBoundingClientRect().top + scrollY`) and
the current clock (`Date.now()` / `performance.now()`, both in ms). -/
structure Env where
  targetY : Int
  now : Nat
deriving DecidableEq, Repr

/-- The instance state of a `Pointy` object: every field of the constructor
that the orchestration engine reads or writes, plus the host timer queue
(`pending`, `nextTimerId`) and the log of emitted events (`events`).  DOM
node handles, class names and CSS values are external collaborators and
carry no engine state beyond what is here. -/
structure PointyState where
  steps : List Step
  offsetX : Int
  offsetY : Int
  tracking : Bool
  trackingFps : Nat
  animationDuration : Nat
  introFadeDuration : Nat
  bubbleFadeDuration : Nat
  messageTransitionDuration : Nat
  easing : String
  resetOnComplete : Bool
  floatingAnimation : Bool
  initialPosition : String
  initialPositionOffset : Int
  resetPositionOnHide : Bool
  autoplay : Option Nat
  autoplayEnabled : Bool
  autoplayWaitForMessages : Bool
  hideOnComplete : Bool
  hideOnCompleteDelay : Option Nat
  autoplayTimeoutId : Option Nat
  autoplayPaused : Bool
  messagesCompletedForStep : Bool
  hideOnCompleteTimeoutId : Option Nat
  pointerSvg : String
  targetElement : Option Target
  currentStepIndex : Nat
  currentMessageIndex : Nat
  currentMessages : List String
  messageInterval : Option Nat
  messageIntervalId : Option Nat
  messageCyclePaused : Bool
  messageCyclePausedByHide : Bool
  wasAutoplayActiveBeforeHide : Bool
  isVisible : Bool
  isPointingUp : Bool
  lastTargetY : Option Int
  targetYHistory : List (Int × Nat)
  lastDirectionChangeTime : Nat
  manualDirection : Option Dir
  moveTimeoutId : Option Nat
  hasShownBefore : Bool
  lastTrackTime : Nat
  rafId : Option Nat
  eventListeners : List (String × Nat)
  windowListenersAttached : Bool
  pending : List Timer
  nextTimerId : Nat
  events : List Ev
deriving DecidableEq, Repr

/-- Constructor options (modelled subset; a `none` numeric option means the
JS caller passed `null` or left the option out where the default is `null`). -/
structure Options where
  steps : List Step := []
  target : Option Target := none
  content : Option ContentU := none
  offsetX : Int := 20
  offsetY : Int := 16
  tracking : Bool := true
  trackingFps : Nat := 60
  animationDuration : Nat := 1000
  introFadeDuration : Nat := 1000
  bubbleFadeDuration : Nat := 500
  messageTransitionDuration : Nat := 500
  easing : String := "default"
  resetOnComplete : Bool := true
  floatingAnimation : Bool := true
  initialPosition : String := "center"
  initialPositionOffset : Int := 32
  resetPositionOnHide : Bool := false
  autoplay : Option Nat := none
  autoplayEnabled : Bool := false
  autoplayWaitForMessages : Bool := true
  hideOnComplete : Bool := true
  hideOnCompleteDelay : Option Nat := none
  messageInterval : Option Nat := none
  pointerSvg : String := ""
deriving Repr

/-- The `Pointy` constructor (state-relevant part of lines 417-536): initial
field values, first step's target and content, and the `resize`/`scroll`
window listeners.  `options.autoplay || null` and
`options.messageInterval || null` coerce `0` to `null`, hence the
`truthyN` filters.  Timer ids issued by the host start at 1 (browser timer
ids are positive; the source tests them for truthiness). -/
def mkPointy (o : Options) : PointyState :=
  let initialMessages :=
    match o.steps.head? with
    | some st => normalizeContent st.content
    | none => normalizeContent (o.content.getD (.one ""))
  let initialTarget :=
    match o.steps.head? with
    | some st => st.target
    | none => o.target
  { steps := o.steps
    offsetX := o.offsetX
    offsetY := o.offsetY
    tracking := o.tracking
    trackingFps := o.trackingFps
    animationDuration := o.animationDuration
    introFadeDuration := o.introFadeDuration
    bubbleFadeDuration := o.bubbleFadeDuration
    messageTransitionDuration := o.messageTransitionDuration
    easing := o.easing
    resetOnComplete := o.resetOnComplete
    floatingAnimation := o.floatingAnimation
    initialPosition := o.initialPosition
    initialPositionOffset := o.initialPositionOffset
    resetPositionOnHide := o.resetPositionOnHide
    autoplay := if truthyN o.autoplay then o.autoplay else none
    autoplayEnabled := o.autoplayEnabled
    autoplayWaitForMessages := o.autoplayWaitForMessages
    hideOnComplete := o.hideOnComplete
    hideOnCompleteDelay := o.hideOnCompleteDelay
    autoplayTimeoutId := none
    autoplayPaused := false
    messagesCompletedForStep := false
    hideOnCompleteTimeoutId := none
    pointerSvg := o.pointerSvg
    targetElement := initialTarget
    currentStepIndex := 0
    currentMessageIndex := 0
    currentMessages := initialMessages
    messageInterval := if truthyN o.messageInterval then o.messageInterval else none
    messageIntervalId := none
    messageCyclePaused := false
    messageCyclePausedByHide := false
    wasAutoplayActiveBeforeHide := false
    isVisible := false
    isPointingUp := true
    lastTargetY := none
    targetYHistory := []
    lastDirectionChangeTime := 0
    manualDirection := none
    moveTimeoutId := none
    hasShownBefore := false
    lastTrackTime := 0
    rafId := none
    eventListeners := []
    windowListenersAttached := true
    pending := []
    nextTimerId := 1
    events := [] }

/-- Append an event to the emission log (`_emit` with the payload elided;
the bus's dispatch order over listeners is modelled by `emitDispatch`). -/
def emitN (s : PointyState) (name : String) : PointyState :=
  { s with events := s.events ++ [Ev.named name] }

/-- Host `setTimeout`/`setInterval`/`requestAnimationFrame`: queue a timer
under a fresh id and return the id. -/
def schedule (s : PointyState) (k : TimerKind) (d : Nat) : PointyState × Nat :=
  ({ s with
      pending := s.pending ++ [{ id := s.nextTimerId, kind := k, delay := d }]
      nextTimerId := s.nextTimerId + 1 },
    s.nextTimerId)

/-- Host `clearTimeout`/`clearInterval`/`cancelAnimationFrame`: drop the
queued timer with the given id (a no-op for an id no longer queued). -/
def clearTimer (s : PointyState) (i : Nat) : PointyState :=
  { s with pending := s.pending.filter (fun t => t.id ≠ i) }

/-- The source's `on(event, callback)` (named `onEvent` here, `on` being a
Lean keyword): record a subscription.  Handlers are identified by an
abstract id; dispatch itself is modelled by `emitDispatch` below. -/
def onEvent (s : PointyState) (event : String) (handlerId : Nat) : PointyState :=
  { s with eventListeners := s.eventListeners ++ [(event, handlerId)] }

end PointyM

namespace PointyM

/-- Direction inference of `updatePosition` (lines 587-617), taken when no
manual direction is set.  Input: previous `isPointingUp`, the retained
`_targetYHistory`, `_lastDirectionChangeTime`, and the new sample
`(y, now)`.  Output: the new `(isPointingUp, _targetYHistory,
_lastDirectionChangeTime)`.  The source also computes `deltaTime`, which it
never uses; `headD`/`getLastD` defaults are irrelevant because the filtered
history always retains the sample just pushed (`now - now = 0 < 200`). -/
def directionStep (up : Bool) (hist0 : List (Int × Nat)) (lastChange : Nat)
    (y : Int) (now : Nat) : Bool × List (Int × Nat) × Nat :=
  let hist := (hist0 ++ [(y, now)]).filter (fun h => now - h.2 < 200)
  if 2 ≤ hist.length then
    let oldest := hist.headD (y, now)
    let newest := hist.getLastD (y, now)
    let deltaY := newest.1 - oldest.1
    -- `Math.abs(deltaY) > velocityThreshold && (now - lastChange) > debounceTime`
    if 30 < deltaY.natAbs ∧ 300 < now - lastChange then
      let newDirection := decide (deltaY < 0)  -- moving up = true, moving down = false
      if newDirection ≠ up then (newDirection, hist, now)
      else (up, hist, lastChange)
    else (up, hist, lastChange)
  else (up, hist, lastChange)

/-- `updatePosition()` (lines 575-646), state-relevant part: a no-op without
a target; with a manual direction, `isPointingUp = manualDirection === 'up'`
and the velocity history is untouched; otherwise the sample is pushed and
`directionStep` runs.  The pixel placement of container/pointer/bubble is
the Geometry collaborator's concern and has no engine state. -/
def updatePositionS (env : Env) (s : PointyState) : PointyState :=
  match s.targetElement with
  | none => s
  | some _ =>
    match s.manualDirection with
    | some d => { s with isPointingUp := d == Dir.up }
    | none =>
      let r := directionStep s.isPointingUp s.targetYHistory s.lastDirectionChangeTime
        env.targetY env.now
      { s with
          isPointingUp := r.1
          targetYHistory := r.2.1
          lastDirectionChangeTime := r.2.2
          lastTargetY := some env.targetY }

/-- `_stopTracking()` (lines 568-573). -/
def stopTrackingInternal (s : PointyState) : PointyState :=
  match s.rafId with
  | some i => { clearTimer s i with rafId := none }
  | none => s

/-- The body of `_trackPosition()` (lines 538-559).  The FPS gate
`now - lastTrackTime >= 1000 / trackingFps` is a floating-point comparison
in the source; it is rendered here as the exact rational equivalent
`(now - lastTrackTime) * trackingFps >= 1000` (for `trackingFps > 0`). -/
def trackPositionStep (env : Env) (s : PointyState) : PointyState :=
  if ¬ s.isVisible ∨ s.targetElement = none then
    { s with rafId := none }
  else
    let s1 :=
      if 0 < s.trackingFps then
        if 1000 ≤ (env.now - s.lastTrackTime) * s.trackingFps then
          emitN (updatePositionS env { s with lastTrackTime := env.now }) "track"
        else s
      else emitN (updatePositionS env s) "track"
    let p := schedule s1 .trackingFrame 0
    { p.1 with rafId := some p.2 }

/-- `_startTracking()` (lines 561-566). -/
def startTrackingInternal (env : Env) (s : PointyState) : PointyState :=
  if ¬ s.tracking then s
  else match s.rafId with
    | none => trackPositionStep env s
    | some _ => s

/-- `_stopAutoplay()` (lines 1819-1824): cancel the stored autoplay timeout. -/
def stopAutoplayTimer (s : PointyState) : PointyState :=
  match s.autoplayTimeoutId with
  | some i => { clearTimer s i with autoplayTimeoutId := none }
  | none => s

/-- `_stopMessageCycle()` (lines 1143-1149). -/
def stopMessageCycleInternal (s : PointyState) : PointyState :=
  match s.messageIntervalId with
  | some i => emitN { clearTimer s i with messageIntervalId := none } "messageCycleStop"
  | none => s

/-- `_startMessageCycle()` (lines 1118-1137): reset the per-step completion
flag, start the `setInterval` (its tick body is `messageCycleTick`), store
the interval id, emit `messageCycleStart`.  A `null` interval is passed to
`setInterval` as delay 0, as the host would coerce it. -/
def startMessageCycleInternal (s : PointyState) : PointyState :=
  let s := { s with messagesCompletedForStep := false }
  let d := s.messageInterval.getD 0
  let p := schedule s (.messageCycle d) d
  emitN { p.1 with messageIntervalId := some p.2 } "messageCycleStart"

/-- `_scheduleAutoplay()` (lines 1772-1795).  No cancellation of a
previously stored timer happens here: the new id simply overwrites
`_autoplayTimeoutId`.  When `currentStepIndex` is out of range the source
dereferences `step.duration` on `undefined` and throws; the TypeError
aborts before `setTimeout` and every call site has this call in tail
position, so the engine state is exactly the unscheduled one modelled
by the `none` branch. -/
def scheduleAutoplayInternal (s : PointyState) : PointyState :=
  if truthyN s.autoplay ∧ s.autoplayEnabled ∧ ¬ s.autoplayPaused ∧ s.isVisible then
    let hasMultipleMessages := 1 < s.currentMessages.length ∧ truthyN s.messageInterval
    if s.autoplayWaitForMessages ∧ hasMultipleMessages then s
    else
      match s.steps.get? s.currentStepIndex with
      | none => s
      | some step =>
        -- step-specific duration if provided, otherwise the global interval
        let duration := match step.duration with
          | some d => some d
          | none => s.autoplay
        -- `if (duration && duration > 0)`
        if truthyN duration then
          let d := duration.getD 0
          let p := schedule s (.autoplayAdvance d) d
          { p.1 with autoplayTimeoutId := some p.2 }
        else s
  else s

/-- `_scheduleAutoplayAfterMessages()` (lines 1801-1813): a fixed 300ms
settle delay; again the stored id is overwritten without cancellation. -/
def scheduleAutoplayAfterMessages (s : PointyState) : PointyState :=
  if truthyN s.autoplay ∧ s.autoplayEnabled ∧ ¬ s.autoplayPaused ∧ s.isVisible then
    let p := schedule s .autoplayAfterMessages 300
    { p.1 with autoplayTimeoutId := some p.2 }
  else s

end PointyM

namespace PointyM

/-- `updateContent()` (lines 1020-1076): renders the message into the bubble
through the Renderer collaborator (`Pointy.renderContent` /
`Pointy.animateText`) and toggles bubble visibility; it writes no engine
field modelled here.  (Its animated path defers a `updatePosition()` call
inside anonymous DOM-animation timeouts, which would only resample the
direction fields; none of the claims depends on that resample.)  Identity. -/
def updateContent (s : PointyState) : PointyState := s

/-- `nextMessage(isAuto)` (lines 1231-1248): circular advance, no-op when at
most one message.  The returned JS boolean is dropped (no claim reads it). -/
def nextMessage (s : PointyState) (_isAuto : Bool) : PointyState :=
  if s.currentMessages.length ≤ 1 then s
  else
    let s := { s with currentMessageIndex :=
      (s.currentMessageIndex + 1) % s.currentMessages.length }
    let s := updateContent s
    emitN s "messageChange"

/-- `prevMessage()` (lines 1254-1270): circular retreat
(`(index - 1 + n) % n`), no-op when at most one message. -/
def prevMessage (s : PointyState) : PointyState :=
  if s.currentMessages.length ≤ 1 then s
  else
    let s := { s with currentMessageIndex :=
      (s.currentMessageIndex + s.currentMessages.length - 1) % s.currentMessages.length }
    let s := updateContent s
    emitN s "messageChange"

/-- `goToMessage(index)` (lines 1276-1290): silent no-op outside
`[0, currentMessages.length)`; the JS index may be negative, hence `Int`. -/
def goToMessage (s : PointyState) (index : Int) : PointyState :=
  if index < 0 ∨ (s.currentMessages.length : Int) ≤ index then s
  else
    let s := { s with currentMessageIndex := index.toNat }
    let s := updateContent s
    emitN s "messageChange"

/-- The `setInterval` tick body of `_startMessageCycle()` (lines 1120-1135):
at the last message with autoplay configured and `autoplayWaitForMessages`,
stop the cycle, flag completion, emit `messageCycleComplete` and defer the
autoplay advance; otherwise cycle to the next message. -/
def messageCycleTick (s : PointyState) : PointyState :=
  let isLastMessage := (s.currentMessageIndex : Int) = (s.currentMessages.length : Int) - 1
  if isLastMessage ∧ truthyN s.autoplay ∧ s.autoplayWaitForMessages then
    let s := stopMessageCycleInternal s
    let s := { s with messagesCompletedForStep := true }
    let s := emitN s "messageCycleComplete"
    scheduleAutoplayAfterMessages s
  else
    nextMessage s true

/-- `_applyMessages(content, fromStepChange)` (lines 1084-1112). -/
def applyMessages (s : PointyState) (content : ContentU) (fromStepChange : Bool) :
    PointyState :=
  let wasRunning := s.messageIntervalId.isSome
  let s := stopMessageCycleInternal s
  let s := { s with
    currentMessages := normalizeContent content
    currentMessageIndex := 0 }
  let s := updateContent s
  let s :=
    if fromStepChange ∧ truthyN s.messageInterval ∧ 1 < s.currentMessages.length then
      startMessageCycleInternal s
    else if wasRunning ∧ 1 < s.currentMessages.length then
      { s with messageCyclePaused := true }
    else s
  emitN s "messagesSet"

/-- Public `startMessageCycle(interval?)` (lines 1182-1195); the JS boolean
result is dropped. -/
def startMessageCycle (s : PointyState) (interval : Option Nat) : PointyState :=
  if s.messageIntervalId.isSome then s
  else if s.currentMessages.length ≤ 1 then s
  else
    let s := match interval with
      | some _ => { s with messageInterval := interval }
      | none => s  -- `interval !== undefined` (an explicit null would also be stored;
                   -- the modelled argument conflates `undefined` and `null`, and no
                   -- claim passes `null`)
    if ¬ truthyN s.messageInterval then s
    else
      let s := { s with messageCyclePaused := false }
      startMessageCycleInternal s

/-- `pauseMessageCycle()` (lines 1154-1161). -/
def pauseMessageCycle (s : PointyState) : PointyState :=
  match s.messageIntervalId with
  | some i =>
    let s := { clearTimer s i with messageIntervalId := none, messageCyclePaused := true }
    emitN s "messageCyclePause"
  | none => s

/-- `resumeMessageCycle()` (lines 1167-1175); the JS boolean result is dropped. -/
def resumeMessageCycle (s : PointyState) : PointyState :=
  if s.messageCyclePaused ∧ truthyN s.messageInterval ∧ 1 < s.currentMessages.length then
    let s := { s with messageCyclePaused := false }
    let s := startMessageCycleInternal s
    emitN s "messageCycleResume"
  else s

end PointyM

namespace PointyM

/-- The `isPointingUp` component of `_getInitialPosition()` (lines
1448-1510): defined (non-`undefined`) only for the `first-step` preset with
a nonempty step list whose first target resolves; then it is
`firstStep.direction !== 'down'`.  The x/y coordinates the source also
returns are Geometry-collaborator output and are not modelled. -/
def initialPosPointingUp (s : PointyState) : Option Bool :=
  if s.initialPosition = "first-step" ∧ s.steps ≠ [] then
    match s.steps.head? with
    | some st =>
      match st.target with
      | some _ => some (st.direction ≠ some Dir.down)
      | none => none
    | none => none
  else none

/-- `hide()` (lines 816-843).  Note what is *not* here: the method never
touches `_hideOnCompleteTimeoutId`, so a pending auto-hide timer stays
queued (compare `show()`, `reset()` and `destroy()`, which do cancel it). -/
def hide (s : PointyState) : PointyState :=
  let s := emitN s "beforeHide"
  let s := { s with isVisible := false }
  let s := if s.resetPositionOnHide then { s with hasShownBefore := false } else s
  let s := stopTrackingInternal s
  let s :=
    match s.messageIntervalId with
    | some _ =>
      let s := stopMessageCycleInternal s
      { s with messageCyclePausedByHide := true }
    | none => s
  let activeBeforeHide := truthyN s.autoplay && s.autoplayEnabled && !s.autoplayPaused
  let s := { s with wasAutoplayActiveBeforeHide := activeBeforeHide }
  let s := stopAutoplayTimer s
  emitN s "hide"

/-- `destroy()` (lines 873-893): emit `destroy`, detach the DOM node and
the window `resize`/`scroll` listeners, stop the tracking frame, cancel the
auto-hide timeout, clear the listener table.  Note what is *not* here: the
message-cycle interval, the autoplay timeout and the move-settle timeout
are left queued and their id fields untouched. -/
def destroy (s : PointyState) : PointyState :=
  let s := emitN s "destroy"
  let s := { s with windowListenersAttached := false }
  let s := stopTrackingInternal s
  let s :=
    match s.hideOnCompleteTimeoutId with
    | some i => { clearTimer s i with hideOnCompleteTimeoutId := none }
    | none => s
  { s with eventListeners := [] }

/-- `reset(goToFirstStep)` (lines 899-940): stop the cycle, cancel a pending
auto-hide, cancel a stale move-settle (the field is not nulled), animate to
the initial position (Geometry), optionally reload step 0, and schedule the
settle continuation that clears `_hasShownBefore` and emits `reset`. -/
def reset (s : PointyState) (goToFirstStep : Bool) : PointyState :=
  let s := emitN s "beforeReset"
  let s := stopMessageCycleInternal s
  let s :=
    match s.hideOnCompleteTimeoutId with
    | some i => { clearTimer s i with hideOnCompleteTimeoutId := none }
    | none => s
  let s :=
    match s.moveTimeoutId with
    | some i => clearTimer s i
    | none => s
  let s :=
    if goToFirstStep ∧ s.steps ≠ [] then
      match s.steps.head? with
      | some firstStep =>
        { s with
            currentStepIndex := 0
            targetElement := firstStep.target
            currentMessages := normalizeContent firstStep.content
            currentMessageIndex := 0 }
      | none => s
    else s
  let p := schedule s .resetSettle s.animationDuration
  { p.1 with moveTimeoutId := some p.2 }

/-- `show()` (lines 648-814).  The synchronous part: emit `beforeShow`,
cancel a pending auto-hide, then either start the one-time intro (first
show: mark shown, set the first-step orientation when defined, become
visible, emit `introAnimationStart` and schedule the intro-fade
continuation) or become visible directly, update position, start tracking,
resume a hide-paused (or auto-startable) message cycle, resume autoplay
that was active before `hide()`, and emit `show`. -/
def showP (env : Env) (s : PointyState) : PointyState :=
  let s := emitN s "beforeShow"
  let s :=
    match s.hideOnCompleteTimeoutId with
    | some i => { clearTimer s i with hideOnCompleteTimeoutId := none }
    | none => s
  if ¬ s.hasShownBefore then
    let s := { s with hasShownBefore := true }
    let isFirstStepStart := s.initialPosition = "first-step"
    -- `if (isFirstStepStart && initialPos.isPointingUp !== undefined)
    --    this.isPointingUp = initialPos.isPointingUp;`
    -- (the else branch only writes pointer/bubble styles)
    let s := { s with isPointingUp :=
      if isFirstStepStart ∧ (initialPosPointingUp s).isSome then
        (initialPosPointingUp s).getD s.isPointingUp
      else s.isPointingUp }
    let s := { s with isVisible := true }
    let s := emitN s "introAnimationStart"
    let p := schedule s (.introFade isFirstStepStart) s.introFadeDuration
    p.1
  else
    let s := { s with isVisible := true }
    let s := updatePositionS env s
    let s := startTrackingInternal env s
    let s :=
      if s.messageCyclePausedByHide ∧ truthyN s.messageInterval
          ∧ 1 < s.currentMessages.length then
        let s := startMessageCycleInternal s
        { s with messageCyclePausedByHide := false }
      else if truthyN s.messageInterval ∧ 1 < s.currentMessages.length
          ∧ s.messageIntervalId = none then
        startMessageCycleInternal s
      else s
    let s :=
      if s.wasAutoplayActiveBeforeHide then
        let s := scheduleAutoplayInternal s
        { s with wasAutoplayActiveBeforeHide := false }
      else s
    emitN s "show"

/-- `goToStep(index)` (lines 1697-1766).  The guard is the first statement:
out of range (or no steps) is a silent no-op.  The deferred settle
continuation (`moveComplete`/`animationEnd`/`_scheduleAutoplay`) is the
`moveSettle` timer, run by `runTimerCallback`.  The `onStepChange` user
callback is an external collaborator. -/
def goToStep (env : Env) (s : PointyState) (index : Int) : PointyState :=
  if s.steps.length = 0 ∨ index < 0 ∨ (s.steps.length : Int) ≤ index then s
  else
    let s := stopAutoplayTimer s
    let s := { s with messagesCompletedForStep := false }
    let s := { s with currentStepIndex := index.toNat }
    let step := s.steps.getD index.toNat { target := none, content := .one "" }
    let s := emitN s "beforeStepChange"
    let s := { s with manualDirection := step.direction }  -- step.direction || null
    let s := { s with targetYHistory := [], lastTargetY := none }
    let s :=
      match s.moveTimeoutId with
      | some i => clearTimer s i  -- `clearTimeout(this.moveTimeout)`, field not nulled
      | none => s
    let s := emitN s "animationStart"
    let p := schedule s .moveSettle s.animationDuration
    let s := { p.1 with moveTimeoutId := some p.2 }
    let s := emitN s "move"
    let s := applyMessages s step.content true
    let s := { s with targetElement := step.target }
    let s := updatePositionS env s
    emitN s "stepChange"

/-- `restart()` (lines 849-871): clear the intro flag; if visible, stop
tracking and cycling, hide and defer `goToStep(0)`+`show()` behind a 50ms
settle timer (`restartSettle`), else perform them synchronously. -/
def restart (env : Env) (s : PointyState) : PointyState :=
  let s := emitN s "beforeRestart"
  let s := { s with hasShownBefore := false }
  if s.isVisible then
    let s := stopTrackingInternal s
    let s := stopMessageCycleInternal s
    let s := { s with isVisible := false }
    (schedule s .restartSettle 50).1
  else
    let s := goToStep env s 0
    let s := showP env s
    emitN s "restart"

/-- `next()` (lines 1954-2003).  Before the last step it delegates to
`goToStep(current+1)`; on the last step it runs the completion sequence:
`complete`, optional `autoplayComplete`, optional `reset()`, and — when
`hideOnComplete` — schedules the auto-hide whose closure will call `hide()`
and emit `autoHide` with the captured `delay`/`source` payload.  The
`onComplete` user callback is an external collaborator. -/
def next (env : Env) (s : PointyState) : PointyState :=
  if s.steps.length = 0 then s
  else if (s.currentStepIndex : Int) < (s.steps.length : Int) - 1 then
    let s := emitN s "next"
    goToStep env s ((s.currentStepIndex : Int) + 1)
  else
    let wasAutoplayActive :=
      truthyN s.autoplay && s.autoplayEnabled && !s.autoplayPaused
    let s := emitN s "complete"
    let s :=
      if wasAutoplayActive then
        let s := stopAutoplayTimer s
        let s := { s with autoplayEnabled := false }
        emitN s "autoplayComplete"
      else s
    if s.resetOnComplete then
      let s := reset s true
      if s.hideOnComplete then
        let hideDelay := s.hideOnCompleteDelay.getD s.animationDuration
        let source := if wasAutoplayActive then Source.autoplay else Source.manual
        let p := schedule s (.hideOnCompleteFire hideDelay source)
          (s.animationDuration + hideDelay)
        { p.1 with hideOnCompleteTimeoutId := some p.2 }
      else s
    else
      if s.hideOnComplete then
        let delay := s.hideOnCompleteDelay.getD s.animationDuration
        let source := if wasAutoplayActive then Source.autoplay else Source.manual
        let p := schedule s (.hideOnCompleteFire delay source) delay
        { p.1 with hideOnCompleteTimeoutId := some p.2 }
      else s

/-- `prev()` (lines 2005-2012). -/
def prev (env : Env) (s : PointyState) : PointyState :=
  if s.steps.length = 0 then s
  else if 0 < s.currentStepIndex then
    let s := emitN s "prev"
    goToStep env s ((s.currentStepIndex : Int) - 1)
  else s

/-- `pointTo(target, content?, direction?)` (lines 2029-2093): temporary
pointing mode.  `currentStepIndex` is read nowhere and written nowhere. -/
def pointTo (env : Env) (s : PointyState) (target : Option Target)
    (content : Option ContentU) (direction : Option Dir) : PointyState :=
  let s := emitN s "beforePointTo"
  let s := { s with manualDirection := direction }  -- direction || null
  let s := { s with targetYHistory := [], lastTargetY := none }
  let s :=
    match s.moveTimeoutId with
    | some i => clearTimer s i  -- field not nulled here either
    | none => s
  let s := emitN s "animationStart"
  let s := { s with targetElement := target }
  let s :=
    match content with
    | some c => applyMessages s c false  -- not from a step change
    | none => s  -- no new content: cycle state is preserved
  let s := updatePositionS env s
  let p := schedule s .pointToSettle s.animationDuration
  let s := { p.1 with moveTimeoutId := some p.2 }
  let s := emitN s "pointTo"
  if ¬ s.isVisible then showP env s else s

end PointyM

namespace PointyM

/-- `startAutoplay()` (lines 1829-1835).  `_scheduleAutoplay()` is called
without a preceding `_stopAutoplay()`: an already pending advance stays
queued and only its stored id is overwritten. -/
def startAutoplay (s : PointyState) : PointyState :=
  if ¬ truthyN s.autoplay then s
  else
    let s := { s with autoplayEnabled := true, autoplayPaused := false }
    let s := emitN s "autoplayStart"
    scheduleAutoplayInternal s

/-- `stopAutoplay()` (lines 1840-1845). -/
def stopAutoplay (s : PointyState) : PointyState :=
  let s := stopAutoplayTimer s
  let s := { s with autoplayEnabled := false, autoplayPaused := false }
  emitN s "autoplayStop"

/-- `pauseAutoplay()` (lines 1850-1854). -/
def pauseAutoplay (s : PointyState) : PointyState :=
  let s := stopAutoplayTimer s
  let s := { s with autoplayPaused := true }
  emitN s "autoplayPause"

/-- `resumeAutoplay()` (lines 1859-1864). -/
def resumeAutoplay (s : PointyState) : PointyState :=
  if ¬ s.autoplayPaused then s
  else
    let s := { s with autoplayPaused := false }
    let s := emitN s "autoplayResume"
    scheduleAutoplayInternal s

/-- `setAutoplayInterval(interval)` (lines 1886-1901): early return on an
unchanged value; otherwise store, emit `autoplayChange`, and restart (or
stop and disable) the timer depending on the new interval. -/
def setAutoplayInterval (s : PointyState) (interval : Option Nat) : PointyState :=
  if s.autoplay = interval then s
  else
    let s := { s with autoplay := interval }
    let s := emitN s "autoplayChange"
    if s.autoplayEnabled ∧ truthyN interval ∧ s.isVisible then
      let s := stopAutoplayTimer s
      scheduleAutoplayInternal s
    else if ¬ truthyN interval then
      let s := stopAutoplayTimer s
      { s with autoplayEnabled := false }
    else s

/-- Legacy `setAutoplay(interval)` (lines 1907-1916): delegate to
`setAutoplayInterval`, then — whenever the interval is truthy and the
instance is visible, even if the value did not change — enable autoplay and
force a full `restart()`. -/
def setAutoplay (env : Env) (s : PointyState) (interval : Option Nat) : PointyState :=
  let s := setAutoplayInterval s interval
  if truthyN interval ∧ s.isVisible then
    let s := { s with autoplayEnabled := true, autoplayPaused := false }
    restart env s
  else s

/-- `setAutoplayWaitForMessages(wait)` (lines 1922-1928). -/
def setAutoplayWaitForMessages (s : PointyState) (wait : Bool) : PointyState :=
  if s.autoplayWaitForMessages = wait then s
  else
    let s := { s with autoplayWaitForMessages := wait }
    emitN s "autoplayWaitForMessagesChange"

/-- `setHideOnComplete(hide)` (lines 1934-1940). -/
def setHideOnComplete (s : PointyState) (h : Bool) : PointyState :=
  if s.hideOnComplete = h then s
  else
    let s := { s with hideOnComplete := h }
    emitN s "hideOnCompleteChange"

/-- `setHideOnCompleteDelay(delay)` (lines 1946-1952). -/
def setHideOnCompleteDelay (s : PointyState) (delay : Option Nat) : PointyState :=
  if s.hideOnCompleteDelay = delay then s
  else
    let s := { s with hideOnCompleteDelay := delay }
    emitN s "hideOnCompleteDelayChange"

/-- `setResetOnComplete(reset)` (lines 946-952). -/
def setResetOnComplete (s : PointyState) (r : Bool) : PointyState :=
  if s.resetOnComplete = r then s
  else
    let s := { s with resetOnComplete := r }
    emitN s "resetOnCompleteChange"

/-- `setFloatingAnimation(enabled)` (lines 958-971); the play-state style
write is DOM-only. -/
def setFloatingAnimation (s : PointyState) (enabled : Bool) : PointyState :=
  if s.floatingAnimation = enabled then s
  else
    let s := { s with floatingAnimation := enabled }
    emitN s "floatingAnimationChange"

/-- `setTracking(enabled)` (lines 985-998). -/
def setTracking (env : Env) (s : PointyState) (enabled : Bool) : PointyState :=
  if s.tracking = enabled then s
  else
    let s := { s with tracking := enabled }
    let s :=
      if enabled ∧ s.isVisible then startTrackingInternal env s
      else if ¬ enabled then stopTrackingInternal s
      else s
    emitN s "trackingChange"

/-- `setTrackingFps(fps)` (lines 1004-1010). -/
def setTrackingFps (s : PointyState) (fps : Nat) : PointyState :=
  if s.trackingFps = fps then s
  else
    let s := { s with trackingFps := fps }
    emitN s "trackingFpsChange"

/-- `setMessageInterval(interval)` (lines 1374-1386). -/
def setMessageInterval (s : PointyState) (interval : Option Nat) : PointyState :=
  if s.messageInterval = interval then s
  else
    let s := { s with messageInterval := interval }
    let s := stopMessageCycleInternal s
    let s :=
      if truthyN interval ∧ 1 < s.currentMessages.length then
        startMessageCycleInternal s
      else s
    emitN s "messageIntervalChange"

/-- `setOffset(offsetX, offsetY)` (lines 1395-1404). -/
def setOffset (env : Env) (s : PointyState) (offsetX offsetY : Int) : PointyState :=
  if s.offsetX = offsetX ∧ s.offsetY = offsetY then s
  else
    let s := { s with offsetX := offsetX, offsetY := offsetY }
    let s := updatePositionS env s
    emitN s "offsetChange"

/-- `setAnimationDuration(duration)` (lines 1410-1417); the CSS custom
property write is DOM-only. -/
def setAnimationDuration (s : PointyState) (duration : Nat) : PointyState :=
  if s.animationDuration = duration then s
  else
    let s := { s with animationDuration := duration }
    emitN s "animationDurationChange"

/-- `setIntroFadeDuration(duration)` (lines 1423-1429). -/
def setIntroFadeDuration (s : PointyState) (duration : Nat) : PointyState :=
  if s.introFadeDuration = duration then s
  else
    let s := { s with introFadeDuration := duration }
    emitN s "introFadeDurationChange"

/-- `setBubbleFadeDuration(duration)` (lines 1435-1442). -/
def setBubbleFadeDuration (s : PointyState) (duration : Nat) : PointyState :=
  if s.bubbleFadeDuration = duration then s
  else
    let s := { s with bubbleFadeDuration := duration }
    emitN s "bubbleFadeDurationChange"

/-- The character-list rendering of `String.startsWith` for the single-char
prefixes `#` and `.` the source tests selectors with. -/
def startsWithChar (p : String) (c : Char) : Bool :=
  p.data.head? = some c

/-- The valid presets of `setInitialPosition` (line 1517). -/
def validPresets : List String :=
  ["center", "top-left", "top-center", "top-right", "middle-left", "middle-right",
    "bottom-left", "bottom-center", "bottom-right", "first-step"]

/-- `setInitialPosition(position)` (lines 1516-1530), for the string form of
the argument (a DOM-element argument skips the validation and is not
modelled): an invalid preset logs a warning and returns without emitting or
mutating; an unchanged value also returns. -/
def setInitialPosition (s : PointyState) (position : String) : PointyState :=
  if ¬ startsWithChar position '#' ∧ ¬ startsWithChar position '.'
      ∧ ¬ validPresets.contains position then
    s  -- console.warn only
  else if s.initialPosition = position then s
  else
    let s := { s with initialPosition := position }
    emitN s "initialPositionChange"

/-- `setInitialPositionOffset(offset)` (lines 1589-1595). -/
def setInitialPositionOffset (s : PointyState) (offset : Int) : PointyState :=
  if s.initialPositionOffset = offset then s
  else
    let s := { s with initialPositionOffset := offset }
    emitN s "initialPositionOffsetChange"

/-- `setEasing(easing)` (lines 1615-1622); resolving the preset to a CSS
value is DOM-only. -/
def setEasing (s : PointyState) (easing : String) : PointyState :=
  if s.easing = easing then s
  else
    let s := { s with easing := easing }
    emitN s "easingChange"

/-- `setMessageTransitionDuration(duration)` (lines 1628-1634). -/
def setMessageTransitionDuration (s : PointyState) (duration : Nat) : PointyState :=
  if s.messageTransitionDuration = duration then s
  else
    let s := { s with messageTransitionDuration := duration }
    emitN s "messageTransitionDurationChange"

/-- `setPointerSvg(svg)` (lines 1640-1647); rendering is DOM-only. -/
def setPointerSvg (s : PointyState) (svg : String) : PointyState :=
  if s.pointerSvg = svg then s
  else
    let s := { s with pointerSvg := svg }
    emitN s "pointerSvgChange"

end PointyM

namespace PointyM

/-- The callback bodies of the timers the engine schedules, re-entering the
state machine exactly as the corresponding closure in the source does.
`autoplayAdvance`/`autoplayAfterMessages` re-check live state before acting
(lines 1789, 1808); the auto-hide closure calls `hide()` then emits
`autoHide` with its captured payload (lines 1982-1984, 1992-1994); the
settle timers clear the transient moving class (DOM) and emit their
completion events; the intro-fade continuation finishes `show()`'s first
branch (lines 708-782); `domOnly` stands for the anonymous timeouts whose
bodies only restore CSS transitions. -/
def runTimerCallback (env : Env) (s : PointyState) : TimerKind → PointyState
  | .autoplayAdvance _ =>
    if ¬ s.autoplayPaused ∧ s.isVisible ∧ s.autoplayEnabled then
      next env (emitN s "autoplayNext")
    else s
  | .autoplayAfterMessages =>
    if ¬ s.autoplayPaused ∧ s.isVisible ∧ s.messagesCompletedForStep then
      next env (emitN s "autoplayNext")
    else s
  | .hideOnCompleteFire d src =>
    let s := hide s
    { s with events := s.events ++ [Ev.autoHide d src] }
  | .messageCycle _ => messageCycleTick s
  | .moveSettle =>
    scheduleAutoplayInternal (emitN (emitN s "moveComplete") "animationEnd")
  | .resetSettle => emitN { s with hasShownBefore := false } "reset"
  | .restartSettle => emitN (showP env (goToStep env s 0)) "restart"
  | .pointToSettle => emitN (emitN s "pointToComplete") "animationEnd"
  | .introFade isFirstStepStart =>
    let s := emitN s "introAnimationEnd"
    if isFirstStepStart then
      let s := startTrackingInternal env s
      let s := (schedule s .domOnly s.bubbleFadeDuration).1
      let s :=
        if truthyN s.messageInterval ∧ 1 < s.currentMessages.length
            ∧ s.messageIntervalId = none then
          startMessageCycleInternal s
        else s
      let s := scheduleAutoplayInternal s
      emitN s "show"
    else
      let s := updatePositionS env s
      let s := startTrackingInternal env s
      let s := (schedule s .bubbleReveal s.animationDuration).1
      emitN s "show"
  | .bubbleReveal =>
    let s :=
      if truthyN s.messageInterval ∧ 1 < s.currentMessages.length
          ∧ s.messageIntervalId = none then
        startMessageCycleInternal s
      else s
    scheduleAutoplayInternal s
  | .domOnly => s
  | .trackingFrame => trackPositionStep env s

/-- Host delivery of a queued timer: a one-shot timer leaves the queue when
it fires; a `setInterval` tick stays queued. -/
def fireTimer (env : Env) (s : PointyState) (t : Timer) : PointyState :=
  match t.kind with
  | .messageCycle i => runTimerCallback env s (.messageCycle i)
  | k => runTimerCallback env (clearTimer s t.id) k

end PointyM

namespace PointyM

/-- A subscribed callback, abstracted to an id and whether its body throws.
What a handler does to the outside world is irrelevant to the dispatch
contract; only its identity and its throwing are observable here. -/
structure Handler where
  id : Nat
  throws : Bool
deriving DecidableEq, Repr

/-- The `_eventListeners` table as a total map: a name with no subscribers
maps to `[]` (the source guards `if (this._eventListeners[...])`, which is
equivalent). -/
abbrev Listeners := String → List Handler

/-- Running one callback: `callback(eventData)` either returns or throws. -/
def execHandler (h : Handler) : Except String Unit :=
  if h.throws then Except.error "handler exception" else Except.ok ()

/-- One `forEach(callback => { try { callback(eventData) } catch (e) {
console.error(...) } })` loop of `_emit` (lines 2217-2223): every handler in
the list is invoked in order; a throwing handler's error is routed to the
console log and the loop continues to the next handler.  Result: (ids
invoked in order, ids whose exception was logged). -/
def forEachTryCatch : List Handler → List Nat × List Nat
  | [] => ([], [])
  | hd :: rest =>
    let tail := forEachTryCatch rest
    match execHandler hd with
    | Except.ok _ => (hd.id :: tail.1, tail.2)
    | Except.error _ => (hd.id :: tail.1, hd.id :: tail.2)

/-- `Pointy.EVENT_GROUPS` (lines 2283-2293), in object insertion order
(`Object.entries` iterates string keys in that order). -/
def EVENT_GROUPS : List (String × List String) :=
  [("lifecycle", ["beforeShow", "show", "beforeHide", "hide", "destroy",
      "beforeRestart", "restart", "beforeReset", "reset"]),
    ("navigation", ["beforeStepChange", "stepChange", "next", "prev", "complete"]),
    ("animation", ["animationStart", "animationEnd", "move", "moveComplete",
      "introAnimationStart", "introAnimationEnd"]),
    ("content", ["contentSet", "messagesSet", "messageChange"]),
    ("messageCycle", ["messageCycleStart", "messageCycleStop", "messageCyclePause",
      "messageCycleResume", "messageCycleComplete"]),
    ("pointing", ["beforePointTo", "pointTo", "pointToComplete"]),
    ("tracking", ["track", "targetChange", "trackingChange", "trackingFpsChange"]),
    ("autoplay", ["autoplayStart", "autoplayStop", "autoplayPause", "autoplayResume",
      "autoplayNext", "autoplayComplete", "autoHide", "autoplayChange",
      "autoplayWaitForMessagesChange"])]

/-- The source's `event.endsWith('Change')`, rendered over the character
list (the string primitives of the host are byte-level; the comparison is
the same). -/
def endsWithChange (event : String) : Bool :=
  "Change".data.isSuffixOf event.data

/-- `Pointy.getEventGroup(event)` (lines 2257-2268): first group whose list
contains the event; otherwise the implicit `config` group for a name ending
in `Change`; otherwise none. -/
def getEventGroup (event : String) : Option String :=
  match EVENT_GROUPS.find? (fun p => p.2.contains event) with
  | some p => some p.1
  | none => if endsWithChange event then some "config" else none

/-- `_emit(event, data)` (lines 2212-2250) over an abstract listener table:
dispatch to the exact-name subscribers, then the containing group's, then
the `*` and `all` wildcard subscribers, each list with its own
try/catch-per-callback loop.  Result: (ids invoked in order, ids whose
exception was logged). -/
def emitDispatch (L : Listeners) (event : String) : List Nat × List Nat :=
  let exact := forEachTryCatch (L event)
  let grp :=
    match getEventGroup event with
    | some g => forEachTryCatch (L g)
    | none => ([], [])
  let star := forEachTryCatch (L "*")
  let alls := forEachTryCatch (L "all")
  (exact.1 ++ grp.1 ++ star.1 ++ alls.1, exact.2 ++ grp.2 ++ star.2 ++ alls.2)

end PointyM

namespace PointyM

/-- A pending autoplay advance (either form of `_autoplayTimeoutId` target). -/
def isAutoplayTimer : TimerKind → Bool
  | .autoplayAdvance _ => true
  | .autoplayAfterMessages => true
  | _ => false

/-- A pending `_messageIntervalId` interval. -/
def isMessageCycleTimer : TimerKind → Bool
  | .messageCycle _ => true
  | _ => false

/-- A pending `_hideOnCompleteTimeoutId` auto-hide timeout. -/
def isHideTimer : TimerKind → Bool
  | .hideOnCompleteFire _ _ => true
  | _ => false

/-- A pending `moveTimeout` settle (`goToStep`, `reset` or `pointTo`). -/
def isMoveTimer : TimerKind → Bool
  | .moveSettle => true
  | .resetSettle => true
  | .pointToSettle => true
  | _ => false

/-- How many autoplay advances the host still holds for this instance. -/
def autoplayTimersPending (s : PointyState) : Nat :=
  (s.pending.filter fun t => isAutoplayTimer t.kind).length

/-- The autoplay timer hygiene the spec's invariant asserts: at most one
pending autoplay timer, the stored `_autoplayTimeoutId` identifies it, and a
paused scheduler holds none (pausing always cancels). -/
def AutoplayInv (s : PointyState) : Prop :=
  autoplayTimersPending s ≤ 1 ∧
  (∀ t ∈ s.pending, isAutoplayTimer t.kind = true → s.autoplayTimeoutId = some t.id) ∧
  (s.autoplayPaused = true → autoplayTimersPending s = 0)

/-- Timer-id hygiene every reachable state has (host timer ids are issued
fresh): no pending auto-hide timer shares its id with the stored tracking
frame, message-cycle or autoplay ids that `hide()` cancels by id. -/
def HideTimerIdsDistinct (s : PointyState) : Prop :=
  ∀ t ∈ s.pending, isHideTimer t.kind = true →
    s.autoplayTimeoutId ≠ some t.id ∧ s.messageIntervalId ≠ some t.id ∧
      s.rafId ≠ some t.id

/-- The sample window `updatePosition` retains: the history with the new
sample pushed, filtered to the last 200ms (lines 591-595). -/
def retainedHistory (s : PointyState) (env : Env) : List (Int × Nat) :=
  (s.targetYHistory ++ [(env.targetY, env.now)]).filter (fun h => env.now - h.2 < 200)

/-- A fixed browser environment for the concrete runs below. -/
def env0 : Env := { targetY := 0, now := 0 }

/-- A one-message step on a resolved target. -/
def stepA : Step := { target := some 1, content := .one "a" }

/-- Construction used by the `destroy()` run: one two-message step with a
1000ms message interval. -/
def c1opts : Options :=
  { steps := [{ target := some 1, content := .many ["a", "b"] }]
    messageInterval := some 1000 }

/-- The `destroy()` run: construct, start the message cycle, destroy. -/
def c1destroyed : PointyState := destroy (startMessageCycle (mkPointy c1opts) none)

/-- A completed-tour run with `resetOnComplete` off: `next()` on the (only)
step has scheduled the auto-hide timeout. -/
def c2base : PointyState := mkPointy { steps := [stepA], resetOnComplete := false }

/-- The state right after that completing `next()`. -/
def c2s : PointyState := next env0 c2base

/-- A visible single-step instance with a 1000ms autoplay interval (made
visible by the first `show()`). -/
def c3base : PointyState := showP env0 (mkPointy { steps := [stepA], autoplay := some 1000 })

/-- A last-step state (`currentStepIndex = 0` of one step) with autoplay
configured and enabled, `hideOnCompleteDelay = 200`, defaults otherwise. -/
def c4s : PointyState :=
  { mkPointy { steps := [stepA], autoplay := some 2000, hideOnCompleteDelay := some 200 }
      with autoplayEnabled := true }

/-- A visible instance whose `autoplay` interval is already 3000ms and whose
autoplay is not enabled. -/
def c6s : PointyState := showP env0 (mkPointy { steps := [stepA], autoplay := some 3000 })

end PointyM

namespace PointyM

/-! Frame lemmas: which instance fields each primitive operation leaves
untouched.  They are stated one field at a time so that later proofs can
rewrite projections of composed operations without expanding the state
record. -/

lemma emitN_currentStepIndex (s : PointyState) (n : String) :
    (emitN s n).currentStepIndex = s.currentStepIndex := rfl

lemma emitN_isVisible (s : PointyState) (n : String) :
    (emitN s n).isVisible = s.isVisible := rfl

lemma emitN_messageInterval (s : PointyState) (n : String) :
    (emitN s n).messageInterval = s.messageInterval := rfl

lemma emitN_currentMessages (s : PointyState) (n : String) :
    (emitN s n).currentMessages = s.currentMessages := rfl

lemma emitN_messageIntervalId (s : PointyState) (n : String) :
    (emitN s n).messageIntervalId = s.messageIntervalId := rfl

lemma emitN_messageCyclePausedByHide (s : PointyState) (n : String) :
    (emitN s n).messageCyclePausedByHide = s.messageCyclePausedByHide := rfl

lemma emitN_wasAutoplayActiveBeforeHide (s : PointyState) (n : String) :
    (emitN s n).wasAutoplayActiveBeforeHide = s.wasAutoplayActiveBeforeHide := rfl

lemma emitN_hideOnCompleteTimeoutId (s : PointyState) (n : String) :
    (emitN s n).hideOnCompleteTimeoutId = s.hideOnCompleteTimeoutId := rfl

lemma emitN_hasShownBefore (s : PointyState) (n : String) :
    (emitN s n).hasShownBefore = s.hasShownBefore := rfl

lemma emitN_initialPosition (s : PointyState) (n : String) :
    (emitN s n).initialPosition = s.initialPosition := rfl

lemma emitN_steps (s : PointyState) (n : String) :
    (emitN s n).steps = s.steps := rfl

lemma emitN_tracking (s : PointyState) (n : String) :
    (emitN s n).tracking = s.tracking := rfl

lemma emitN_rafId (s : PointyState) (n : String) :
    (emitN s n).rafId = s.rafId := rfl

lemma emitN_targetElement (s : PointyState) (n : String) :
    (emitN s n).targetElement = s.targetElement := rfl

lemma emitN_manualDirection (s : PointyState) (n : String) :
    (emitN s n).manualDirection = s.manualDirection := rfl

lemma emitN_autoplay (s : PointyState) (n : String) :
    (emitN s n).autoplay = s.autoplay := rfl

lemma emitN_autoplayEnabled (s : PointyState) (n : String) :
    (emitN s n).autoplayEnabled = s.autoplayEnabled := rfl

lemma emitN_autoplayPaused (s : PointyState) (n : String) :
    (emitN s n).autoplayPaused = s.autoplayPaused := rfl

lemma emitN_autoplayWaitForMessages (s : PointyState) (n : String) :
    (emitN s n).autoplayWaitForMessages = s.autoplayWaitForMessages := rfl

lemma emitN_autoplayTimeoutId (s : PointyState) (n : String) :
    (emitN s n).autoplayTimeoutId = s.autoplayTimeoutId := rfl

lemma emitN_trackingFps (s : PointyState) (n : String) :
    (emitN s n).trackingFps = s.trackingFps := rfl

lemma emitN_animationDuration (s : PointyState) (n : String) :
    (emitN s n).animationDuration = s.animationDuration := rfl

lemma emitN_hideOnCompleteDelay (s : PointyState) (n : String) :
    (emitN s n).hideOnCompleteDelay = s.hideOnCompleteDelay := rfl

lemma emitN_hideOnComplete (s : PointyState) (n : String) :
    (emitN s n).hideOnComplete = s.hideOnComplete := rfl

lemma emitN_resetOnComplete (s : PointyState) (n : String) :
    (emitN s n).resetOnComplete = s.resetOnComplete := rfl

lemma emitN_moveTimeoutId (s : PointyState) (n : String) :
    (emitN s n).moveTimeoutId = s.moveTimeoutId := rfl

lemma emitN_messagesCompletedForStep (s : PointyState) (n : String) :
    (emitN s n).messagesCompletedForStep = s.messagesCompletedForStep := rfl

lemma emitN_currentMessageIndex (s : PointyState) (n : String) :
    (emitN s n).currentMessageIndex = s.currentMessageIndex := rfl

lemma scheduleFst_currentStepIndex (s : PointyState) (k : TimerKind) (d : Nat) :
    ((schedule s k d).1).currentStepIndex = s.currentStepIndex := rfl

lemma scheduleFst_isVisible (s : PointyState) (k : TimerKind) (d : Nat) :
    ((schedule s k d).1).isVisible = s.isVisible := rfl

lemma scheduleFst_messageInterval (s : PointyState) (k : TimerKind) (d : Nat) :
    ((schedule s k d).1).messageInterval = s.messageInterval := rfl

lemma scheduleFst_currentMessages (s : PointyState) (k : TimerKind) (d : Nat) :
    ((schedule s k d).1).currentMessages = s.currentMessages := rfl

lemma scheduleFst_messageIntervalId (s : PointyState) (k : TimerKind) (d : Nat) :
    ((schedule s k d).1).messageIntervalId = s.messageIntervalId := rfl

lemma scheduleFst_messageCyclePausedByHide (s : PointyState) (k : TimerKind) (d : Nat) :
    ((schedule s k d).1).messageCyclePausedByHide = s.messageCyclePausedByHide := rfl

lemma scheduleFst_wasAutoplayActiveBeforeHide (s : PointyState) (k : TimerKind) (d : Nat) :
    ((schedule s k d).1).wasAutoplayActiveBeforeHide = s.wasAutoplayActiveBeforeHide := rfl

lemma scheduleFst_hideOnCompleteTimeoutId (s : PointyState) (k : TimerKind) (d : Nat) :
    ((schedule s k d).1).hideOnCompleteTimeoutId = s.hideOnCompleteTimeoutId := rfl

lemma scheduleFst_hasShownBefore (s : PointyState) (k : TimerKind) (d : Nat) :
    ((schedule s k d).1).hasShownBefore = s.hasShownBefore := rfl

lemma scheduleFst_initialPosition (s : PointyState) (k : TimerKind) (d : Nat) :
    ((schedule s k d).1).initialPosition = s.initialPosition := rfl

lemma scheduleFst_steps (s : PointyState) (k : TimerKind) (d : Nat) :
    ((schedule s k d).1).steps = s.steps := rfl

lemma scheduleFst_tracking (s : PointyState) (k : TimerKind) (d : Nat) :
    ((schedule s k d).1).tracking = s.tracking := rfl

lemma scheduleFst_rafId (s : PointyState) (k : TimerKind) (d : Nat) :
    ((schedule s k d).1).rafId = s.rafId := rfl

lemma scheduleFst_targetElement (s : PointyState) (k : TimerKind) (d : Nat) :
    ((schedule s k d).1).targetElement = s.targetElement := rfl

lemma scheduleFst_manualDirection (s : PointyState) (k : TimerKind) (d : Nat) :
    ((schedule s k d).1).manualDirection = s.manualDirection := rfl

lemma scheduleFst_autoplay (s : PointyState) (k : TimerKind) (d : Nat) :
    ((schedule s k d).1).autoplay = s.autoplay := rfl

lemma scheduleFst_autoplayEnabled (s : PointyState) (k : TimerKind) (d : Nat) :
    ((schedule s k d).1).autoplayEnabled = s.autoplayEnabled := rfl

lemma scheduleFst_autoplayPaused (s : PointyState) (k : TimerKind) (d : Nat) :
    ((schedule s k d).1).autoplayPaused = s.autoplayPaused := rfl

lemma scheduleFst_autoplayWaitForMessages (s : PointyState) (k : TimerKind) (d : Nat) :
    ((schedule s k d).1).autoplayWaitForMessages = s.autoplayWaitForMessages := rfl

lemma scheduleFst_autoplayTimeoutId (s : PointyState) (k : TimerKind) (d : Nat) :
    ((schedule s k d).1).autoplayTimeoutId = s.autoplayTimeoutId := rfl

lemma scheduleFst_trackingFps (s : PointyState) (k : TimerKind) (d : Nat) :
    ((schedule s k d).1).trackingFps = s.trackingFps := rfl

lemma scheduleFst_animationDuration (s : PointyState) (k : TimerKind) (d : Nat) :
    ((schedule s k d).1).animationDuration = s.animationDuration := rfl

lemma scheduleFst_hideOnCompleteDelay (s : PointyState) (k : TimerKind) (d : Nat) :
    ((schedule s k d).1).hideOnCompleteDelay = s.hideOnCompleteDelay := rfl

lemma scheduleFst_hideOnComplete (s : PointyState) (k : TimerKind) (d : Nat) :
    ((schedule s k d).1).hideOnComplete = s.hideOnComplete := rfl

lemma scheduleFst_resetOnComplete (s : PointyState) (k : TimerKind) (d : Nat) :
    ((schedule s k d).1).resetOnComplete = s.resetOnComplete := rfl

lemma scheduleFst_moveTimeoutId (s : PointyState) (k : TimerKind) (d : Nat) :
    ((schedule s k d).1).moveTimeoutId = s.moveTimeoutId := rfl

lemma scheduleFst_messagesCompletedForStep (s : PointyState) (k : TimerKind) (d : Nat) :
    ((schedule s k d).1).messagesCompletedForStep = s.messagesCompletedForStep := rfl

lemma scheduleFst_currentMessageIndex (s : PointyState) (k : TimerKind) (d : Nat) :
    ((schedule s k d).1).currentMessageIndex = s.currentMessageIndex := rfl

lemma clearTimer_currentStepIndex (s : PointyState) (i : Nat) :
    (clearTimer s i).currentStepIndex = s.currentStepIndex := rfl

lemma clearTimer_isVisible (s : PointyState) (i : Nat) :
    (clearTimer s i).isVisible = s.isVisible := rfl

lemma clearTimer_messageInterval (s : PointyState) (i : Nat) :
    (clearTimer s i).messageInterval = s.messageInterval := rfl

lemma clearTimer_currentMessages (s : PointyState) (i : Nat) :
    (clearTimer s i).currentMessages = s.currentMessages := rfl

lemma clearTimer_messageIntervalId (s : PointyState) (i : Nat) :
    (clearTimer s i).messageIntervalId = s.messageIntervalId := rfl

lemma clearTimer_messageCyclePausedByHide (s : PointyState) (i : Nat) :
    (clearTimer s i).messageCyclePausedByHide = s.messageCyclePausedByHide := rfl

lemma clearTimer_wasAutoplayActiveBeforeHide (s : PointyState) (i : Nat) :
    (clearTimer s i).wasAutoplayActiveBeforeHide = s.wasAutoplayActiveBeforeHide := rfl

lemma clearTimer_hideOnCompleteTimeoutId (s : PointyState) (i : Nat) :
    (clearTimer s i).hideOnCompleteTimeoutId = s.hideOnCompleteTimeoutId := rfl

lemma clearTimer_hasShownBefore (s : PointyState) (i : Nat) :
    (clearTimer s i).hasShownBefore = s.hasShownBefore := rfl

lemma clearTimer_initialPosition (s : PointyState) (i : Nat) :
    (clearTimer s i).initialPosition = s.initialPosition := rfl

lemma clearTimer_steps (s : PointyState) (i : Nat) :
    (clearTimer s i).steps = s.steps := rfl

lemma clearTimer_tracking (s : PointyState) (i : Nat) :
    (clearTimer s i).tracking = s.tracking := rfl

lemma clearTimer_rafId (s : PointyState) (i : Nat) :
    (clearTimer s i).rafId = s.rafId := rfl

lemma clearTimer_targetElement (s : PointyState) (i : Nat) :
    (clearTimer s i).targetElement = s.targetElement := rfl

lemma clearTimer_manualDirection (s : PointyState) (i : Nat) :
    (clearTimer s i).manualDirection = s.manualDirection := rfl

lemma clearTimer_autoplay (s : PointyState) (i : Nat) :
    (clearTimer s i).autoplay = s.autoplay := rfl

lemma clearTimer_autoplayEnabled (s : PointyState) (i : Nat) :
    (clearTimer s i).autoplayEnabled = s.autoplayEnabled := rfl

lemma clearTimer_autoplayPaused (s : PointyState) (i : Nat) :
    (clearTimer s i).autoplayPaused = s.autoplayPaused := rfl

lemma clearTimer_autoplayWaitForMessages (s : PointyState) (i : Nat) :
    (clearTimer s i).autoplayWaitForMessages = s.autoplayWaitForMessages := rfl

lemma clearTimer_autoplayTimeoutId (s : PointyState) (i : Nat) :
    (clearTimer s i).autoplayTimeoutId = s.autoplayTimeoutId := rfl

lemma clearTimer_trackingFps (s : PointyState) (i : Nat) :
    (clearTimer s i).trackingFps = s.trackingFps := rfl

lemma clearTimer_animationDuration (s : PointyState) (i : Nat) :
    (clearTimer s i).animationDuration = s.animationDuration := rfl

lemma clearTimer_hideOnCompleteDelay (s : PointyState) (i : Nat) :
    (clearTimer s i).hideOnCompleteDelay = s.hideOnCompleteDelay := rfl

lemma clearTimer_hideOnComplete (s : PointyState) (i : Nat) :
    (clearTimer s i).hideOnComplete = s.hideOnComplete := rfl

lemma clearTimer_resetOnComplete (s : PointyState) (i : Nat) :
    (clearTimer s i).resetOnComplete = s.resetOnComplete := rfl

lemma clearTimer_moveTimeoutId (s : PointyState) (i : Nat) :
    (clearTimer s i).moveTimeoutId = s.moveTimeoutId := rfl

lemma clearTimer_messagesCompletedForStep (s : PointyState) (i : Nat) :
    (clearTimer s i).messagesCompletedForStep = s.messagesCompletedForStep := rfl

lemma clearTimer_currentMessageIndex (s : PointyState) (i : Nat) :
    (clearTimer s i).currentMessageIndex = s.currentMessageIndex := rfl

lemma updateContent_currentStepIndex (s : PointyState) :
    (updateContent s).currentStepIndex = s.currentStepIndex := rfl

lemma updateContent_isVisible (s : PointyState) :
    (updateContent s).isVisible = s.isVisible := rfl

lemma updateContent_messageInterval (s : PointyState) :
    (updateContent s).messageInterval = s.messageInterval := rfl

lemma updateContent_currentMessages (s : PointyState) :
    (updateContent s).currentMessages = s.currentMessages := rfl

lemma updateContent_messageIntervalId (s : PointyState) :
    (updateContent s).messageIntervalId = s.messageIntervalId := rfl

lemma updateContent_messageCyclePausedByHide (s : PointyState) :
    (updateContent s).messageCyclePausedByHide = s.messageCyclePausedByHide := rfl

lemma updateContent_wasAutoplayActiveBeforeHide (s : PointyState) :
    (updateContent s).wasAutoplayActiveBeforeHide = s.wasAutoplayActiveBeforeHide := rfl

lemma updateContent_hideOnCompleteTimeoutId (s : PointyState) :
    (updateContent s).hideOnCompleteTimeoutId = s.hideOnCompleteTimeoutId := rfl

lemma updateContent_hasShownBefore (s : PointyState) :
    (updateContent s).hasShownBefore = s.hasShownBefore := rfl

lemma updateContent_initialPosition (s : PointyState) :
    (updateContent s).initialPosition = s.initialPosition := rfl

lemma updateContent_steps (s : PointyState) :
    (updateContent s).steps = s.steps := rfl

lemma updateContent_tracking (s : PointyState) :
    (updateContent s).tracking = s.tracking := rfl

lemma updateContent_rafId (s : PointyState) :
    (updateContent s).rafId = s.rafId := rfl

lemma updateContent_targetElement (s : PointyState) :
    (updateContent s).targetElement = s.targetElement := rfl

lemma updateContent_manualDirection (s : PointyState) :
    (updateContent s).manualDirection = s.manualDirection := rfl

lemma updateContent_autoplay (s : PointyState) :
    (updateContent s).autoplay = s.autoplay := rfl

lemma updateContent_autoplayEnabled (s : PointyState) :
    (updateContent s).autoplayEnabled = s.autoplayEnabled := rfl

lemma updateContent_autoplayPaused (s : PointyState) :
    (updateContent s).autoplayPaused = s.autoplayPaused := rfl

lemma updateContent_autoplayWaitForMessages (s : PointyState) :
    (updateContent s).autoplayWaitForMessages = s.autoplayWaitForMessages := rfl

lemma updateContent_autoplayTimeoutId (s : PointyState) :
    (updateContent s).autoplayTimeoutId = s.autoplayTimeoutId := rfl

lemma updateContent_trackingFps (s : PointyState) :
    (updateContent s).trackingFps = s.trackingFps := rfl

lemma updateContent_animationDuration (s : PointyState) :
    (updateContent s).animationDuration = s.animationDuration := rfl

lemma updateContent_hideOnCompleteDelay (s : PointyState) :
    (updateContent s).hideOnCompleteDelay = s.hideOnCompleteDelay := rfl

lemma updateContent_hideOnComplete (s : PointyState) :
    (updateContent s).hideOnComplete = s.hideOnComplete := rfl

lemma updateContent_resetOnComplete (s : PointyState) :
    (updateContent s).resetOnComplete = s.resetOnComplete := rfl

lemma updateContent_moveTimeoutId (s : PointyState) :
    (updateContent s).moveTimeoutId = s.moveTimeoutId := rfl

lemma updateContent_messagesCompletedForStep (s : PointyState) :
    (updateContent s).messagesCompletedForStep = s.messagesCompletedForStep := rfl

lemma updateContent_currentMessageIndex (s : PointyState) :
    (updateContent s).currentMessageIndex = s.currentMessageIndex := rfl

lemma startMessageCycleInternal_currentStepIndex (s : PointyState) :
    (startMessageCycleInternal s).currentStepIndex = s.currentStepIndex := rfl

lemma startMessageCycleInternal_isVisible (s : PointyState) :
    (startMessageCycleInternal s).isVisible = s.isVisible := rfl

lemma startMessageCycleInternal_messageInterval (s : PointyState) :
    (startMessageCycleInternal s).messageInterval = s.messageInterval := rfl

lemma startMessageCycleInternal_currentMessages (s : PointyState) :
    (startMessageCycleInternal s).currentMessages = s.currentMessages := rfl

lemma startMessageCycleInternal_messageCyclePausedByHide (s : PointyState) :
    (startMessageCycleInternal s).messageCyclePausedByHide = s.messageCyclePausedByHide := rfl

lemma startMessageCycleInternal_wasAutoplayActiveBeforeHide (s : PointyState) :
    (startMessageCycleInternal s).wasAutoplayActiveBeforeHide = s.wasAutoplayActiveBeforeHide := rfl

lemma startMessageCycleInternal_hideOnCompleteTimeoutId (s : PointyState) :
    (startMessageCycleInternal s).hideOnCompleteTimeoutId = s.hideOnCompleteTimeoutId := rfl

lemma startMessageCycleInternal_hasShownBefore (s : PointyState) :
    (startMessageCycleInternal s).hasShownBefore = s.hasShownBefore := rfl

lemma startMessageCycleInternal_initialPosition (s : PointyState) :
    (startMessageCycleInternal s).initialPosition = s.initialPosition := rfl

lemma startMessageCycleInternal_steps (s : PointyState) :
    (startMessageCycleInternal s).steps = s.steps := rfl

lemma startMessageCycleInternal_tracking (s : PointyState) :
    (startMessageCycleInternal s).tracking = s.tracking := rfl

lemma startMessageCycleInternal_rafId (s : PointyState) :
    (startMessageCycleInternal s).rafId = s.rafId := rfl

lemma startMessageCycleInternal_targetElement (s : PointyState) :
    (startMessageCycleInternal s).targetElement = s.targetElement := rfl

lemma startMessageCycleInternal_manualDirection (s : PointyState) :
    (startMessageCycleInternal s).manualDirection = s.manualDirection := rfl

lemma startMessageCycleInternal_autoplay (s : PointyState) :
    (startMessageCycleInternal s).autoplay = s.autoplay := rfl

lemma startMessageCycleInternal_autoplayEnabled (s : PointyState) :
    (startMessageCycleInternal s).autoplayEnabled = s.autoplayEnabled := rfl

lemma startMessageCycleInternal_autoplayPaused (s : PointyState) :
    (startMessageCycleInternal s).autoplayPaused = s.autoplayPaused := rfl

lemma startMessageCycleInternal_autoplayWaitForMessages (s : PointyState) :
    (startMessageCycleInternal s).autoplayWaitForMessages = s.autoplayWaitForMessages := rfl

lemma startMessageCycleInternal_autoplayTimeoutId (s : PointyState) :
    (startMessageCycleInternal s).autoplayTimeoutId = s.autoplayTimeoutId := rfl

lemma startMessageCycleInternal_trackingFps (s : PointyState) :
    (startMessageCycleInternal s).trackingFps = s.trackingFps := rfl

lemma startMessageCycleInternal_animationDuration (s : PointyState) :
    (startMessageCycleInternal s).animationDuration = s.animationDuration := rfl

lemma startMessageCycleInternal_hideOnCompleteDelay (s : PointyState) :
    (startMessageCycleInternal s).hideOnCompleteDelay = s.hideOnCompleteDelay := rfl

lemma startMessageCycleInternal_hideOnComplete (s : PointyState) :
    (startMessageCycleInternal s).hideOnComplete = s.hideOnComplete := rfl

lemma startMessageCycleInternal_resetOnComplete (s : PointyState) :
    (startMessageCycleInternal s).resetOnComplete = s.resetOnComplete := rfl

lemma startMessageCycleInternal_moveTimeoutId (s : PointyState) :
    (startMessageCycleInternal s).moveTimeoutId = s.moveTimeoutId := rfl

lemma startMessageCycleInternal_currentMessageIndex (s : PointyState) :
    (startMessageCycleInternal s).currentMessageIndex = s.currentMessageIndex := rfl

lemma stopMessageCycleInternal_currentStepIndex (s : PointyState) :
    (stopMessageCycleInternal s).currentStepIndex = s.currentStepIndex := by
  unfold stopMessageCycleInternal
  cases h : s.messageIntervalId <;> simp [h, clearTimer, emitN]

lemma stopMessageCycleInternal_isVisible (s : PointyState) :
    (stopMessageCycleInternal s).isVisible = s.isVisible := by
  unfold stopMessageCycleInternal
  cases h : s.messageIntervalId <;> simp [h, clearTimer, emitN]

lemma stopMessageCycleInternal_messageInterval (s : PointyState) :
    (stopMessageCycleInternal s).messageInterval = s.messageInterval := by
  unfold stopMessageCycleInternal
  cases h : s.messageIntervalId <;> simp [h, clearTimer, emitN]

lemma stopMessageCycleInternal_currentMessages (s : PointyState) :
    (stopMessageCycleInternal s).currentMessages = s.currentMessages := by
  unfold stopMessageCycleInternal
  cases h : s.messageIntervalId <;> simp [h, clearTimer, emitN]

lemma stopMessageCycleInternal_messageCyclePausedByHide (s : PointyState) :
    (stopMessageCycleInternal s).messageCyclePausedByHide = s.messageCyclePausedByHide := by
  unfold stopMessageCycleInternal
  cases h : s.messageIntervalId <;> simp [h, clearTimer, emitN]

lemma stopMessageCycleInternal_wasAutoplayActiveBeforeHide (s : PointyState) :
    (stopMessageCycleInternal s).wasAutoplayActiveBeforeHide = s.wasAutoplayActiveBeforeHide := by
  unfold stopMessageCycleInternal
  cases h : s.messageIntervalId <;> simp [h, clearTimer, emitN]

lemma stopMessageCycleInternal_hideOnCompleteTimeoutId (s : PointyState) :
    (stopMessageCycleInternal s).hideOnCompleteTimeoutId = s.hideOnCompleteTimeoutId := by
  unfold stopMessageCycleInternal
  cases h : s.messageIntervalId <;> simp [h, clearTimer, emitN]

lemma stopMessageCycleInternal_hasShownBefore (s : PointyState) :
    (stopMessageCycleInternal s).hasShownBefore = s.hasShownBefore := by
  unfold stopMessageCycleInternal
  cases h : s.messageIntervalId <;> simp [h, clearTimer, emitN]

lemma stopMessageCycleInternal_initialPosition (s : PointyState) :
    (stopMessageCycleInternal s).initialPosition = s.initialPosition := by
  unfold stopMessageCycleInternal
  cases h : s.messageIntervalId <;> simp [h, clearTimer, emitN]

lemma stopMessageCycleInternal_steps (s : PointyState) :
    (stopMessageCycleInternal s).steps = s.steps := by
  unfold stopMessageCycleInternal
  cases h : s.messageIntervalId <;> simp [h, clearTimer, emitN]

lemma stopMessageCycleInternal_tracking (s : PointyState) :
    (stopMessageCycleInternal s).tracking = s.tracking := by
  unfold stopMessageCycleInternal
  cases h : s.messageIntervalId <;> simp [h, clearTimer, emitN]

lemma stopMessageCycleInternal_rafId (s : PointyState) :
    (stopMessageCycleInternal s).rafId = s.rafId := by
  unfold stopMessageCycleInternal
  cases h : s.messageIntervalId <;> simp [h, clearTimer, emitN]

lemma stopMessageCycleInternal_targetElement (s : PointyState) :
    (stopMessageCycleInternal s).targetElement = s.targetElement := by
  unfold stopMessageCycleInternal
  cases h : s.messageIntervalId <;> simp [h, clearTimer, emitN]

lemma stopMessageCycleInternal_manualDirection (s : PointyState) :
    (stopMessageCycleInternal s).manualDirection = s.manualDirection := by
  unfold stopMessageCycleInternal
  cases h : s.messageIntervalId <;> simp [h, clearTimer, emitN]

lemma stopMessageCycleInternal_autoplay (s : PointyState) :
    (stopMessageCycleInternal s).autoplay = s.autoplay := by
  unfold stopMessageCycleInternal
  cases h : s.messageIntervalId <;> simp [h, clearTimer, emitN]

lemma stopMessageCycleInternal_autoplayEnabled (s : PointyState) :
    (stopMessageCycleInternal s).autoplayEnabled = s.autoplayEnabled := by
  unfold stopMessageCycleInternal
  cases h : s.messageIntervalId <;> simp [h, clearTimer, emitN]

lemma stopMessageCycleInternal_autoplayPaused (s : PointyState) :
    (stopMessageCycleInternal s).autoplayPaused = s.autoplayPaused := by
  unfold stopMessageCycleInternal
  cases h : s.messageIntervalId <;> simp [h, clearTimer, emitN]

lemma stopMessageCycleInternal_autoplayWaitForMessages (s : PointyState) :
    (stopMessageCycleInternal s).autoplayWaitForMessages = s.autoplayWaitForMessages := by
  unfold stopMessageCycleInternal
  cases h : s.messageIntervalId <;> simp [h, clearTimer, emitN]

lemma stopMessageCycleInternal_autoplayTimeoutId (s : PointyState) :
    (stopMessageCycleInternal s).autoplayTimeoutId = s.autoplayTimeoutId := by
  unfold stopMessageCycleInternal
  cases h : s.messageIntervalId <;> simp [h, clearTimer, emitN]

lemma stopMessageCycleInternal_trackingFps (s : PointyState) :
    (stopMessageCycleInternal s).trackingFps = s.trackingFps := by
  unfold stopMessageCycleInternal
  cases h : s.messageIntervalId <;> simp [h, clearTimer, emitN]

lemma stopMessageCycleInternal_animationDuration (s : PointyState) :
    (stopMessageCycleInternal s).animationDuration = s.animationDuration := by
  unfold stopMessageCycleInternal
  cases h : s.messageIntervalId <;> simp [h, clearTimer, emitN]

lemma stopMessageCycleInternal_hideOnCompleteDelay (s : PointyState) :
    (stopMessageCycleInternal s).hideOnCompleteDelay = s.hideOnCompleteDelay := by
  unfold stopMessageCycleInternal
  cases h : s.messageIntervalId <;> simp [h, clearTimer, emitN]

lemma stopMessageCycleInternal_hideOnComplete (s : PointyState) :
    (stopMessageCycleInternal s).hideOnComplete = s.hideOnComplete := by
  unfold stopMessageCycleInternal
  cases h : s.messageIntervalId <;> simp [h, clearTimer, emitN]

lemma stopMessageCycleInternal_resetOnComplete (s : PointyState) :
    (stopMessageCycleInternal s).resetOnComplete = s.resetOnComplete := by
  unfold stopMessageCycleInternal
  cases h : s.messageIntervalId <;> simp [h, clearTimer, emitN]

lemma stopMessageCycleInternal_moveTimeoutId (s : PointyState) :
    (stopMessageCycleInternal s).moveTimeoutId = s.moveTimeoutId := by
  unfold stopMessageCycleInternal
  cases h : s.messageIntervalId <;> simp [h, clearTimer, emitN]

lemma stopMessageCycleInternal_messagesCompletedForStep (s : PointyState) :
    (stopMessageCycleInternal s).messagesCompletedForStep = s.messagesCompletedForStep := by
  unfold stopMessageCycleInternal
  cases h : s.messageIntervalId <;> simp [h, clearTimer, emitN]

lemma stopMessageCycleInternal_currentMessageIndex (s : PointyState) :
    (stopMessageCycleInternal s).currentMessageIndex = s.currentMessageIndex := by
  unfold stopMessageCycleInternal
  cases h : s.messageIntervalId <;> simp [h, clearTimer, emitN]

lemma stopTrackingInternal_currentStepIndex (s : PointyState) :
    (stopTrackingInternal s).currentStepIndex = s.currentStepIndex := by
  unfold stopTrackingInternal
  cases h : s.rafId <;> simp [h, clearTimer]

lemma stopTrackingInternal_isVisible (s : PointyState) :
    (stopTrackingInternal s).isVisible = s.isVisible := by
  unfold stopTrackingInternal
  cases h : s.rafId <;> simp [h, clearTimer]

lemma stopTrackingInternal_messageInterval (s : PointyState) :
    (stopTrackingInternal s).messageInterval = s.messageInterval := by
  unfold stopTrackingInternal
  cases h : s.rafId <;> simp [h, clearTimer]

lemma stopTrackingInternal_currentMessages (s : PointyState) :
    (stopTrackingInternal s).currentMessages = s.currentMessages := by
  unfold stopTrackingInternal
  cases h : s.rafId <;> simp [h, clearTimer]

lemma stopTrackingInternal_messageIntervalId (s : PointyState) :
    (stopTrackingInternal s).messageIntervalId = s.messageIntervalId := by
  unfold stopTrackingInternal
  cases h : s.rafId <;> simp [h, clearTimer]

lemma stopTrackingInternal_messageCyclePausedByHide (s : PointyState) :
    (stopTrackingInternal s).messageCyclePausedByHide = s.messageCyclePausedByHide := by
  unfold stopTrackingInternal
  cases h : s.rafId <;> simp [h, clearTimer]

lemma stopTrackingInternal_wasAutoplayActiveBeforeHide (s : PointyState) :
    (stopTrackingInternal s).wasAutoplayActiveBeforeHide = s.wasAutoplayActiveBeforeHide := by
  unfold stopTrackingInternal
  cases h : s.rafId <;> simp [h, clearTimer]

lemma stopTrackingInternal_hideOnCompleteTimeoutId (s : PointyState) :
    (stopTrackingInternal s).hideOnCompleteTimeoutId = s.hideOnCompleteTimeoutId := by
  unfold stopTrackingInternal
  cases h : s.rafId <;> simp [h, clearTimer]

lemma stopTrackingInternal_hasShownBefore (s : PointyState) :
    (stopTrackingInternal s).hasShownBefore = s.hasShownBefore := by
  unfold stopTrackingInternal
  cases h : s.rafId <;> simp [h, clearTimer]

lemma stopTrackingInternal_initialPosition (s : PointyState) :
    (stopTrackingInternal s).initialPosition = s.initialPosition := by
  unfold stopTrackingInternal
  cases h : s.rafId <;> simp [h, clearTimer]

lemma stopTrackingInternal_steps (s : PointyState) :
    (stopTrackingInternal s).steps = s.steps := by
  unfold stopTrackingInternal
  cases h : s.rafId <;> simp [h, clearTimer]

lemma stopTrackingInternal_tracking (s : PointyState) :
    (stopTrackingInternal s).tracking = s.tracking := by
  unfold stopTrackingInternal
  cases h : s.rafId <;> simp [h, clearTimer]

lemma stopTrackingInternal_targetElement (s : PointyState) :
    (stopTrackingInternal s).targetElement = s.targetElement := by
  unfold stopTrackingInternal
  cases h : s.rafId <;> simp [h, clearTimer]

lemma stopTrackingInternal_manualDirection (s : PointyState) :
    (stopTrackingInternal s).manualDirection = s.manualDirection := by
  unfold stopTrackingInternal
  cases h : s.rafId <;> simp [h, clearTimer]

lemma stopTrackingInternal_autoplay (s : PointyState) :
    (stopTrackingInternal s).autoplay = s.autoplay := by
  unfold stopTrackingInternal
  cases h : s.rafId <;> simp [h, clearTimer]

lemma stopTrackingInternal_autoplayEnabled (s : PointyState) :
    (stopTrackingInternal s).autoplayEnabled = s.autoplayEnabled := by
  unfold stopTrackingInternal
  cases h : s.rafId <;> simp [h, clearTimer]

lemma stopTrackingInternal_autoplayPaused (s : PointyState) :
    (stopTrackingInternal s).autoplayPaused = s.autoplayPaused := by
  unfold stopTrackingInternal
  cases h : s.rafId <;> simp [h, clearTimer]

lemma stopTrackingInternal_autoplayWaitForMessages (s : PointyState) :
    (stopTrackingInternal s).autoplayWaitForMessages = s.autoplayWaitForMessages := by
  unfold stopTrackingInternal
  cases h : s.rafId <;> simp [h, clearTimer]

lemma stopTrackingInternal_autoplayTimeoutId (s : PointyState) :
    (stopTrackingInternal s).autoplayTimeoutId = s.autoplayTimeoutId := by
  unfold stopTrackingInternal
  cases h : s.rafId <;> simp [h, clearTimer]

lemma stopTrackingInternal_trackingFps (s : PointyState) :
    (stopTrackingInternal s).trackingFps = s.trackingFps := by
  unfold stopTrackingInternal
  cases h : s.rafId <;> simp [h, clearTimer]

lemma stopTrackingInternal_animationDuration (s : PointyState) :
    (stopTrackingInternal s).animationDuration = s.animationDuration := by
  unfold stopTrackingInternal
  cases h : s.rafId <;> simp [h, clearTimer]

lemma stopTrackingInternal_hideOnCompleteDelay (s : PointyState) :
    (stopTrackingInternal s).hideOnCompleteDelay = s.hideOnCompleteDelay := by
  unfold stopTrackingInternal
  cases h : s.rafId <;> simp [h, clearTimer]

lemma stopTrackingInternal_hideOnComplete (s : PointyState) :
    (stopTrackingInternal s).hideOnComplete = s.hideOnComplete := by
  unfold stopTrackingInternal
  cases h : s.rafId <;> simp [h, clearTimer]

lemma stopTrackingInternal_resetOnComplete (s : PointyState) :
    (stopTrackingInternal s).resetOnComplete = s.resetOnComplete := by
  unfold stopTrackingInternal
  cases h : s.rafId <;> simp [h, clearTimer]

lemma stopTrackingInternal_moveTimeoutId (s : PointyState) :
    (stopTrackingInternal s).moveTimeoutId = s.moveTimeoutId := by
  unfold stopTrackingInternal
  cases h : s.rafId <;> simp [h, clearTimer]

lemma stopTrackingInternal_messagesCompletedForStep (s : PointyState) :
    (stopTrackingInternal s).messagesCompletedForStep = s.messagesCompletedForStep := by
  unfold stopTrackingInternal
  cases h : s.rafId <;> simp [h, clearTimer]

lemma stopTrackingInternal_currentMessageIndex (s : PointyState) :
    (stopTrackingInternal s).currentMessageIndex = s.currentMessageIndex := by
  unfold stopTrackingInternal
  cases h : s.rafId <;> simp [h, clearTimer]

lemma stopAutoplayTimer_currentStepIndex (s : PointyState) :
    (stopAutoplayTimer s).currentStepIndex = s.currentStepIndex := by
  unfold stopAutoplayTimer
  cases h : s.autoplayTimeoutId <;> simp [h, clearTimer]

lemma stopAutoplayTimer_isVisible (s : PointyState) :
    (stopAutoplayTimer s).isVisible = s.isVisible := by
  unfold stopAutoplayTimer
  cases h : s.autoplayTimeoutId <;> simp [h, clearTimer]

lemma stopAutoplayTimer_messageInterval (s : PointyState) :
    (stopAutoplayTimer s).messageInterval = s.messageInterval := by
  unfold stopAutoplayTimer
  cases h : s.autoplayTimeoutId <;> simp [h, clearTimer]

lemma stopAutoplayTimer_currentMessages (s : PointyState) :
    (stopAutoplayTimer s).currentMessages = s.currentMessages := by
  unfold stopAutoplayTimer
  cases h : s.autoplayTimeoutId <;> simp [h, clearTimer]

lemma stopAutoplayTimer_messageIntervalId (s : PointyState) :
    (stopAutoplayTimer s).messageIntervalId = s.messageIntervalId := by
  unfold stopAutoplayTimer
  cases h : s.autoplayTimeoutId <;> simp [h, clearTimer]

lemma stopAutoplayTimer_messageCyclePausedByHide (s : PointyState) :
    (stopAutoplayTimer s).messageCyclePausedByHide = s.messageCyclePausedByHide := by
  unfold stopAutoplayTimer
  cases h : s.autoplayTimeoutId <;> simp [h, clearTimer]

lemma stopAutoplayTimer_wasAutoplayActiveBeforeHide (s : PointyState) :
    (stopAutoplayTimer s).wasAutoplayActiveBeforeHide = s.wasAutoplayActiveBeforeHide := by
  unfold stopAutoplayTimer
  cases h : s.autoplayTimeoutId <;> simp [h, clearTimer]

lemma stopAutoplayTimer_hideOnCompleteTimeoutId (s : PointyState) :
    (stopAutoplayTimer s).hideOnCompleteTimeoutId = s.hideOnCompleteTimeoutId := by
  unfold stopAutoplayTimer
  cases h : s.autoplayTimeoutId <;> simp [h, clearTimer]

lemma stopAutoplayTimer_hasShownBefore (s : PointyState) :
    (stopAutoplayTimer s).hasShownBefore = s.hasShownBefore := by
  unfold stopAutoplayTimer
  cases h : s.autoplayTimeoutId <;> simp [h, clearTimer]

lemma stopAutoplayTimer_initialPosition (s : PointyState) :
    (stopAutoplayTimer s).initialPosition = s.initialPosition := by
  unfold stopAutoplayTimer
  cases h : s.autoplayTimeoutId <;> simp [h, clearTimer]

lemma stopAutoplayTimer_steps (s : PointyState) :
    (stopAutoplayTimer s).steps = s.steps := by
  unfold stopAutoplayTimer
  cases h : s.autoplayTimeoutId <;> simp [h, clearTimer]

lemma stopAutoplayTimer_tracking (s : PointyState) :
    (stopAutoplayTimer s).tracking = s.tracking := by
  unfold stopAutoplayTimer
  cases h : s.autoplayTimeoutId <;> simp [h, clearTimer]

lemma stopAutoplayTimer_rafId (s : PointyState) :
    (stopAutoplayTimer s).rafId = s.rafId := by
  unfold stopAutoplayTimer
  cases h : s.autoplayTimeoutId <;> simp [h, clearTimer]

lemma stopAutoplayTimer_targetElement (s : PointyState) :
    (stopAutoplayTimer s).targetElement = s.targetElement := by
  unfold stopAutoplayTimer
  cases h : s.autoplayTimeoutId <;> simp [h, clearTimer]

lemma stopAutoplayTimer_manualDirection (s : PointyState) :
    (stopAutoplayTimer s).manualDirection = s.manualDirection := by
  unfold stopAutoplayTimer
  cases h : s.autoplayTimeoutId <;> simp [h, clearTimer]

lemma stopAutoplayTimer_autoplay (s : PointyState) :
    (stopAutoplayTimer s).autoplay = s.autoplay := by
  unfold stopAutoplayTimer
  cases h : s.autoplayTimeoutId <;> simp [h, clearTimer]

lemma stopAutoplayTimer_autoplayEnabled (s : PointyState) :
    (stopAutoplayTimer s).autoplayEnabled = s.autoplayEnabled := by
  unfold stopAutoplayTimer
  cases h : s.autoplayTimeoutId <;> simp [h, clearTimer]

lemma stopAutoplayTimer_autoplayPaused (s : PointyState) :
    (stopAutoplayTimer s).autoplayPaused = s.autoplayPaused := by
  unfold stopAutoplayTimer
  cases h : s.autoplayTimeoutId <;> simp [h, clearTimer]

lemma stopAutoplayTimer_autoplayWaitForMessages (s : PointyState) :
    (stopAutoplayTimer s).autoplayWaitForMessages = s.autoplayWaitForMessages := by
  unfold stopAutoplayTimer
  cases h : s.autoplayTimeoutId <;> simp [h, clearTimer]

lemma stopAutoplayTimer_trackingFps (s : PointyState) :
    (stopAutoplayTimer s).trackingFps = s.trackingFps := by
  unfold stopAutoplayTimer
  cases h : s.autoplayTimeoutId <;> simp [h, clearTimer]

lemma stopAutoplayTimer_animationDuration (s : PointyState) :
    (stopAutoplayTimer s).animationDuration = s.animationDuration := by
  unfold stopAutoplayTimer
  cases h : s.autoplayTimeoutId <;> simp [h, clearTimer]

lemma stopAutoplayTimer_hideOnCompleteDelay (s : PointyState) :
    (stopAutoplayTimer s).hideOnCompleteDelay = s.hideOnCompleteDelay := by
  unfold stopAutoplayTimer
  cases h : s.autoplayTimeoutId <;> simp [h, clearTimer]

lemma stopAutoplayTimer_hideOnComplete (s : PointyState) :
    (stopAutoplayTimer s).hideOnComplete = s.hideOnComplete := by
  unfold stopAutoplayTimer
  cases h : s.autoplayTimeoutId <;> simp [h, clearTimer]

lemma stopAutoplayTimer_resetOnComplete (s : PointyState) :
    (stopAutoplayTimer s).resetOnComplete = s.resetOnComplete := by
  unfold stopAutoplayTimer
  cases h : s.autoplayTimeoutId <;> simp [h, clearTimer]

lemma stopAutoplayTimer_moveTimeoutId (s : PointyState) :
    (stopAutoplayTimer s).moveTimeoutId = s.moveTimeoutId := by
  unfold stopAutoplayTimer
  cases h : s.autoplayTimeoutId <;> simp [h, clearTimer]

lemma stopAutoplayTimer_messagesCompletedForStep (s : PointyState) :
    (stopAutoplayTimer s).messagesCompletedForStep = s.messagesCompletedForStep := by
  unfold stopAutoplayTimer
  cases h : s.autoplayTimeoutId <;> simp [h, clearTimer]

lemma stopAutoplayTimer_currentMessageIndex (s : PointyState) :
    (stopAutoplayTimer s).currentMessageIndex = s.currentMessageIndex := by
  unfold stopAutoplayTimer
  cases h : s.autoplayTimeoutId <;> simp [h, clearTimer]

lemma updatePositionS_currentStepIndex (env : Env) (s : PointyState) :
    (updatePositionS env s).currentStepIndex = s.currentStepIndex := by
  unfold updatePositionS
  cases h1 : s.targetElement <;> cases h2 : s.manualDirection <;> simp [h1, h2]

lemma updatePositionS_isVisible (env : Env) (s : PointyState) :
    (updatePositionS env s).isVisible = s.isVisible := by
  unfold updatePositionS
  cases h1 : s.targetElement <;> cases h2 : s.manualDirection <;> simp [h1, h2]

lemma updatePositionS_messageInterval (env : Env) (s : PointyState) :
    (updatePositionS env s).messageInterval = s.messageInterval := by
  unfold updatePositionS
  cases h1 : s.targetElement <;> cases h2 : s.manualDirection <;> simp [h1, h2]

lemma updatePositionS_currentMessages (env : Env) (s : PointyState) :
    (updatePositionS env s).currentMessages = s.currentMessages := by
  unfold updatePositionS
  cases h1 : s.targetElement <;> cases h2 : s.manualDirection <;> simp [h1, h2]

lemma updatePositionS_messageIntervalId (env : Env) (s : PointyState) :
    (updatePositionS env s).messageIntervalId = s.messageIntervalId := by
  unfold updatePositionS
  cases h1 : s.targetElement <;> cases h2 : s.manualDirection <;> simp [h1, h2]

lemma updatePositionS_messageCyclePausedByHide (env : Env) (s : PointyState) :
    (updatePositionS env s).messageCyclePausedByHide = s.messageCyclePausedByHide := by
  unfold updatePositionS
  cases h1 : s.targetElement <;> cases h2 : s.manualDirection <;> simp [h1, h2]

lemma updatePositionS_wasAutoplayActiveBeforeHide (env : Env) (s : PointyState) :
    (updatePositionS env s).wasAutoplayActiveBeforeHide = s.wasAutoplayActiveBeforeHide := by
  unfold updatePositionS
  cases h1 : s.targetElement <;> cases h2 : s.manualDirection <;> simp [h1, h2]

lemma updatePositionS_hideOnCompleteTimeoutId (env : Env) (s : PointyState) :
    (updatePositionS env s).hideOnCompleteTimeoutId = s.hideOnCompleteTimeoutId := by
  unfold updatePositionS
  cases h1 : s.targetElement <;> cases h2 : s.manualDirection <;> simp [h1, h2]

lemma updatePositionS_hasShownBefore (env : Env) (s : PointyState) :
    (updatePositionS env s).hasShownBefore = s.hasShownBefore := by
  unfold updatePositionS
  cases h1 : s.targetElement <;> cases h2 : s.manualDirection <;> simp [h1, h2]

lemma updatePositionS_initialPosition (env : Env) (s : PointyState) :
    (updatePositionS env s).initialPosition = s.initialPosition := by
  unfold updatePositionS
  cases h1 : s.targetElement <;> cases h2 : s.manualDirection <;> simp [h1, h2]

lemma updatePositionS_steps (env : Env) (s : PointyState) :
    (updatePositionS env s).steps = s.steps := by
  unfold updatePositionS
  cases h1 : s.targetElement <;> cases h2 : s.manualDirection <;> simp [h1, h2]

lemma updatePositionS_tracking (env : Env) (s : PointyState) :
    (updatePositionS env s).tracking = s.tracking := by
  unfold updatePositionS
  cases h1 : s.targetElement <;> cases h2 : s.manualDirection <;> simp [h1, h2]

lemma updatePositionS_rafId (env : Env) (s : PointyState) :
    (updatePositionS env s).rafId = s.rafId := by
  unfold updatePositionS
  cases h1 : s.targetElement <;> cases h2 : s.manualDirection <;> simp [h1, h2]

lemma updatePositionS_targetElement (env : Env) (s : PointyState) :
    (updatePositionS env s).targetElement = s.targetElement := by
  unfold updatePositionS
  cases h1 : s.targetElement <;> cases h2 : s.manualDirection <;> simp [h1, h2]

lemma updatePositionS_autoplay (env : Env) (s : PointyState) :
    (updatePositionS env s).autoplay = s.autoplay := by
  unfold updatePositionS
  cases h1 : s.targetElement <;> cases h2 : s.manualDirection <;> simp [h1, h2]

lemma updatePositionS_autoplayEnabled (env : Env) (s : PointyState) :
    (updatePositionS env s).autoplayEnabled = s.autoplayEnabled := by
  unfold updatePositionS
  cases h1 : s.targetElement <;> cases h2 : s.manualDirection <;> simp [h1, h2]

lemma updatePositionS_autoplayPaused (env : Env) (s : PointyState) :
    (updatePositionS env s).autoplayPaused = s.autoplayPaused := by
  unfold updatePositionS
  cases h1 : s.targetElement <;> cases h2 : s.manualDirection <;> simp [h1, h2]

lemma updatePositionS_autoplayWaitForMessages (env : Env) (s : PointyState) :
    (updatePositionS env s).autoplayWaitForMessages = s.autoplayWaitForMessages := by
  unfold updatePositionS
  cases h1 : s.targetElement <;> cases h2 : s.manualDirection <;> simp [h1, h2]

lemma updatePositionS_autoplayTimeoutId (env : Env) (s : PointyState) :
    (updatePositionS env s).autoplayTimeoutId = s.autoplayTimeoutId := by
  unfold updatePositionS
  cases h1 : s.targetElement <;> cases h2 : s.manualDirection <;> simp [h1, h2]

lemma updatePositionS_trackingFps (env : Env) (s : PointyState) :
    (updatePositionS env s).trackingFps = s.trackingFps := by
  unfold updatePositionS
  cases h1 : s.targetElement <;> cases h2 : s.manualDirection <;> simp [h1, h2]

lemma updatePositionS_animationDuration (env : Env) (s : PointyState) :
    (updatePositionS env s).animationDuration = s.animationDuration := by
  unfold updatePositionS
  cases h1 : s.targetElement <;> cases h2 : s.manualDirection <;> simp [h1, h2]

lemma updatePositionS_hideOnCompleteDelay (env : Env) (s : PointyState) :
    (updatePositionS env s).hideOnCompleteDelay = s.hideOnCompleteDelay := by
  unfold updatePositionS
  cases h1 : s.targetElement <;> cases h2 : s.manualDirection <;> simp [h1, h2]

lemma updatePositionS_hideOnComplete (env : Env) (s : PointyState) :
    (updatePositionS env s).hideOnComplete = s.hideOnComplete := by
  unfold updatePositionS
  cases h1 : s.targetElement <;> cases h2 : s.manualDirection <;> simp [h1, h2]

lemma updatePositionS_resetOnComplete (env : Env) (s : PointyState) :
    (updatePositionS env s).resetOnComplete = s.resetOnComplete := by
  unfold updatePositionS
  cases h1 : s.targetElement <;> cases h2 : s.manualDirection <;> simp [h1, h2]

lemma updatePositionS_moveTimeoutId (env : Env) (s : PointyState) :
    (updatePositionS env s).moveTimeoutId = s.moveTimeoutId := by
  unfold updatePositionS
  cases h1 : s.targetElement <;> cases h2 : s.manualDirection <;> simp [h1, h2]

lemma updatePositionS_messagesCompletedForStep (env : Env) (s : PointyState) :
    (updatePositionS env s).messagesCompletedForStep = s.messagesCompletedForStep := by
  unfold updatePositionS
  cases h1 : s.targetElement <;> cases h2 : s.manualDirection <;> simp [h1, h2]

lemma updatePositionS_currentMessageIndex (env : Env) (s : PointyState) :
    (updatePositionS env s).currentMessageIndex = s.currentMessageIndex := by
  unfold updatePositionS
  cases h1 : s.targetElement <;> cases h2 : s.manualDirection <;> simp [h1, h2]

end PointyM

namespace PointyM

lemma scheduleAutoplayInternal_currentStepIndex (s : PointyState) :
    (scheduleAutoplayInternal s).currentStepIndex = s.currentStepIndex := by
  simp only [scheduleAutoplayInternal]
  split
  · split
    · rfl
    · split
      · rfl
      · split <;> rfl
  · rfl

lemma trackPositionStep_currentStepIndex (env : Env) (s : PointyState) :
    (trackPositionStep env s).currentStepIndex = s.currentStepIndex := by
  simp only [trackPositionStep]
  split
  · rfl
  · simp [scheduleFst_currentStepIndex, apply_ite PointyState.currentStepIndex,
      emitN_currentStepIndex, updatePositionS_currentStepIndex]

lemma startTrackingInternal_currentStepIndex (env : Env) (s : PointyState) :
    (startTrackingInternal env s).currentStepIndex = s.currentStepIndex := by
  simp only [startTrackingInternal]
  split
  · rfl
  · split
    · exact trackPositionStep_currentStepIndex env s
    · rfl

lemma applyMessages_currentStepIndex (s : PointyState) (c : ContentU) (b : Bool) :
    (applyMessages s c b).currentStepIndex = s.currentStepIndex := by
  simp only [applyMessages, updateContent]
  simp [emitN_currentStepIndex, startMessageCycleInternal_currentStepIndex,
    apply_ite PointyState.currentStepIndex, stopMessageCycleInternal_currentStepIndex]

lemma applyMessages_isVisible (s : PointyState) (c : ContentU) (b : Bool) :
    (applyMessages s c b).isVisible = s.isVisible := by
  simp only [applyMessages, updateContent]
  simp [emitN_isVisible, startMessageCycleInternal_isVisible,
    apply_ite PointyState.isVisible, stopMessageCycleInternal_isVisible]

set_option maxHeartbeats 2000000 in
lemma showP_currentStepIndex (env : Env) (s : PointyState) :
    (showP env s).currentStepIndex = s.currentStepIndex := by
  simp only [showP]
  cases h : s.hideOnCompleteTimeoutId <;>
    simp [h, emitN_hideOnCompleteTimeoutId, emitN_currentStepIndex,
      scheduleFst_currentStepIndex, clearTimer_currentStepIndex,
      apply_ite PointyState.currentStepIndex,
      startMessageCycleInternal_currentStepIndex, startTrackingInternal_currentStepIndex,
      updatePositionS_currentStepIndex, scheduleAutoplayInternal_currentStepIndex]

end PointyM

namespace PointyM

set_option maxHeartbeats 2000000 in
/-- C9: `pointTo(target, content?, direction?)` never modifies
`currentStepIndex`: for every state, environment and choice of arguments
(including the hidden-instance path that re-enters `show()`), the step index
after `pointTo` equals its value before the call, so a later `next()` or
`prev()` continues from the step cursor as if `pointTo` never happened. -/
theorem pointTo_preserves_currentStepIndex (env : Env) (s : PointyState)
    (target : Option Target) (content : Option ContentU) (direction : Option Dir) :
    (pointTo env s target content direction).currentStepIndex = s.currentStepIndex := by
  simp only [pointTo]
  cases hm : s.moveTimeoutId <;> cases content <;>
    simp [hm, emitN_currentStepIndex, emitN_isVisible, emitN_moveTimeoutId,
      clearTimer_currentStepIndex, clearTimer_isVisible,
      applyMessages_currentStepIndex, applyMessages_isVisible,
      updatePositionS_currentStepIndex, updatePositionS_isVisible,
      scheduleFst_currentStepIndex, scheduleFst_isVisible,
      apply_ite PointyState.currentStepIndex, showP_currentStepIndex]

end PointyM

namespace PointyM

/-- C8: `goToStep(i)` with `steps` empty or `i` outside `[0, steps.length)`
is a silent no-op (the guard is the method's first statement): nothing is
raised, no field is mutated, no event is emitted; likewise `goToMessage(i)`
with `i` outside `[0, currentMessages.length)`. -/
theorem goToStep_goToMessage_out_of_range_noop (env : Env) (s : PointyState) (i : Int) :
    ((s.steps.length = 0 ∨ i < 0 ∨ (s.steps.length : Int) ≤ i) → goToStep env s i = s) ∧
    ((i < 0 ∨ (s.currentMessages.length : Int) ≤ i) → goToMessage s i = s) := by
  constructor
  · intro h
    simp only [goToStep]
    rw [if_pos h]
  · intro h
    simp only [goToMessage]
    rw [if_pos h]

/-- C6 (amended): every configuration setter of the `set*` family except the
legacy `setAutoplay` is a no-op when called with the current value: the
whole state — fields, timer queue and event log — is returned unchanged. -/
theorem setters_idempotent_at_current_value (env : Env) (s : PointyState) :
    setEasing s s.easing = s ∧
    setAnimationDuration s s.animationDuration = s ∧
    setIntroFadeDuration s s.introFadeDuration = s ∧
    setBubbleFadeDuration s s.bubbleFadeDuration = s ∧
    setMessageTransitionDuration s s.messageTransitionDuration = s ∧
    setMessageInterval s s.messageInterval = s ∧
    setOffset env s s.offsetX s.offsetY = s ∧
    setInitialPosition s s.initialPosition = s ∧
    setInitialPositionOffset s s.initialPositionOffset = s ∧
    setTracking env s s.tracking = s ∧
    setTrackingFps s s.trackingFps = s ∧
    setResetOnComplete s s.resetOnComplete = s ∧
    setHideOnComplete s s.hideOnComplete = s ∧
    setHideOnCompleteDelay s s.hideOnCompleteDelay = s ∧
    setAutoplayWaitForMessages s s.autoplayWaitForMessages = s ∧
    setAutoplayInterval s s.autoplay = s ∧
    setFloatingAnimation s s.floatingAnimation = s ∧
    setPointerSvg s s.pointerSvg = s := by
  refine ⟨?_, ?_, ?_, ?_, ?_, ?_, ?_, ?_, ?_, ?_, ?_, ?_, ?_, ?_, ?_, ?_, ?_, ?_⟩
  · simp [setEasing]
  · simp [setAnimationDuration]
  · simp [setIntroFadeDuration]
  · simp [setBubbleFadeDuration]
  · simp [setMessageTransitionDuration]
  · simp [setMessageInterval]
  · simp [setOffset]
  · simp [setInitialPosition]
  · simp [setInitialPositionOffset]
  · simp [setTracking]
  · simp [setTrackingFps]
  · simp [setResetOnComplete]
  · simp [setHideOnComplete]
  · simp [setHideOnCompleteDelay]
  · simp [setAutoplayWaitForMessages]
  · simp [setAutoplayInterval]
  · simp [setFloatingAnimation]
  · simp [setPointerSvg]

/-- C6 (counterexample): the legacy setter `setAutoplay`, called with the
interval already stored (`c6s.autoplay = some 3000`) on a visible instance,
is not a no-op: it flips `autoplayEnabled`, emits an event (`beforeRestart`)
and hides the instance to restart it. -/
theorem setAutoplay_current_value_not_noop :
    c6s.autoplay = some 3000 ∧ c6s.autoplayEnabled = false ∧ c6s.isVisible = true ∧
    (setAutoplay env0 c6s (some 3000)).autoplayEnabled = true ∧
    (setAutoplay env0 c6s (some 3000)).events.length = c6s.events.length + 1 ∧
    (setAutoplay env0 c6s (some 3000)).isVisible = false := by decide

/-- C1: evaluating `destroy()` on an instance whose message cycle is running
shows the claim's failing input: the `setInterval` survives (`destroy` never
clears `_messageIntervalId`), and a tick that fires after `destroy()` has
returned still emits `messageChange` on the instance — and, being an
interval, it stays queued afterwards. -/
theorem destroy_leaves_message_cycle_running :
    c1destroyed.messageIntervalId = some 1 ∧
    (c1destroyed.pending.filter fun t => isMessageCycleTimer t.kind).length = 1 ∧
    (fireTimer env0 c1destroyed
        { id := 1, kind := .messageCycle 1000, delay := 1000 }).events.length =
      c1destroyed.events.length + 1 ∧
    ((fireTimer env0 c1destroyed
        { id := 1, kind := .messageCycle 1000, delay := 1000 }).pending.filter
          fun t => isMessageCycleTimer t.kind).length = 1 := by decide

/-- C2 (counterexample): in the completed-tour state `c2s` the auto-hide
timeout (id 1) is pending; `hide()` leaves both the stored id and the queued
timer untouched, and the timer can still fire afterwards, emitting
`autoHide` on the hidden instance. -/
theorem hide_does_not_cancel_auto_hide_cex :
    c2s.hideOnCompleteTimeoutId = some 1 ∧
    (hide c2s).hideOnCompleteTimeoutId = some 1 ∧
    ((hide c2s).pending.filter fun t => isHideTimer t.kind) =
      [{ id := 1, kind := .hideOnCompleteFire 1000 .manual, delay := 1000 }] ∧
    (fireTimer env0 (hide c2s)
        { id := 1, kind := .hideOnCompleteFire 1000 .manual, delay := 1000 }).events.getLast? =
      some (Ev.autoHide 1000 Source.manual) := by decide

end PointyM

namespace PointyM

set_option maxHeartbeats 2000000 in
/-- C2 (amended): `hide()` does not cancel a pending auto-hide timer.  Under
the timer-id hygiene every reachable state has, the stored
`_hideOnCompleteTimeoutId` and every queued auto-hide timer survive `hide()`
unchanged — the deferred hide/`autoHide` continuation can still fire
afterwards (it is `show()`, `reset()` and `destroy()` that cancel it). -/
theorem hide_preserves_pending_auto_hide_timer (s : PointyState)
    (h : HideTimerIdsDistinct s) :
    (hide s).hideOnCompleteTimeoutId = s.hideOnCompleteTimeoutId ∧
    ∀ t ∈ s.pending, isHideTimer t.kind = true → t ∈ (hide s).pending := by
  constructor
  · cases hm : s.messageIntervalId <;>
      simp [hide, emitN_hideOnCompleteTimeoutId, emitN_messageIntervalId,
        stopTrackingInternal_hideOnCompleteTimeoutId, stopTrackingInternal_messageIntervalId,
        stopMessageCycleInternal_hideOnCompleteTimeoutId,
        stopAutoplayTimer_hideOnCompleteTimeoutId, hm,
        apply_ite PointyState.hideOnCompleteTimeoutId,
        apply_ite PointyState.messageIntervalId]
  · intro t ht hk
    obtain ⟨ha', hm', hr'⟩ := h t ht hk
    cases hr : s.rafId <;> cases hm : s.messageIntervalId <;> cases ha : s.autoplayTimeoutId <;>
      rw [hr] at hr' <;> rw [hm] at hm' <;> rw [ha] at ha' <;>
      simp [hide, emitN, clearTimer, stopTrackingInternal, stopMessageCycleInternal,
        stopAutoplayTimer, hr, hm, ha, apply_ite, List.mem_filter, ht] <;>
      simp_all only [ne_eq, Option.some.injEq] <;> omega

end PointyM

namespace PointyM

/-- Closed instance of the amended C2 theorem at the concrete completed-tour
state: its hypothesis holds there and the conclusion follows by applying the
theorem. -/
theorem hide_preserves_pending_auto_hide_timer_witness :
    HideTimerIdsDistinct c2s ∧
    ((hide c2s).hideOnCompleteTimeoutId = c2s.hideOnCompleteTimeoutId ∧
      ∀ t ∈ c2s.pending, isHideTimer t.kind = true → t ∈ (hide c2s).pending) :=
  ⟨by simp only [HideTimerIdsDistinct]; decide,
    hide_preserves_pending_auto_hide_timer c2s (by simp only [HideTimerIdsDistinct]; decide)⟩

lemma autoplayTimersPending_eq_zero (s : PointyState) :
    autoplayTimersPending s = 0 ↔ ∀ t ∈ s.pending, isAutoplayTimer t.kind = false := by
  simp [autoplayTimersPending, List.length_eq_zero, List.filter_eq_nil_iff]

lemma inv_of_count_zero (s : PointyState) (h0 : autoplayTimersPending s = 0) :
    AutoplayInv s := by
  refine ⟨by omega, ?_, fun _ => h0⟩
  intro t ht hk
  exact absurd ((autoplayTimersPending_eq_zero s).mp h0 t ht) (by simp [hk])

lemma stopAutoplayTimer_clears (s : PointyState)
    (htr : ∀ t ∈ s.pending, isAutoplayTimer t.kind = true → s.autoplayTimeoutId = some t.id) :
    autoplayTimersPending (stopAutoplayTimer s) = 0 ∧
      (stopAutoplayTimer s).autoplayTimeoutId = none := by
  cases ha : s.autoplayTimeoutId with
  | none =>
    constructor
    · rw [show stopAutoplayTimer s = s by simp [stopAutoplayTimer, ha]]
      rw [autoplayTimersPending_eq_zero]
      intro t ht
      by_contra hk
      have := htr t ht (by simpa using hk)
      simp [ha] at this
    · simp [stopAutoplayTimer, ha]
  | some i =>
    constructor
    · rw [autoplayTimersPending_eq_zero]
      intro t ht
      simp only [stopAutoplayTimer, ha, clearTimer, List.mem_filter] at ht
      by_contra hk
      have := htr t ht.1 (by simpa using hk)
      rw [ha] at this
      simp at this
      exact absurd this.symm (by simpa using ht.2)
    · simp [stopAutoplayTimer, ha]

lemma scheduleAutoplayInternal_inv (s : PointyState)
    (h0 : autoplayTimersPending s = 0) :
    AutoplayInv (scheduleAutoplayInternal s) := by
  simp only [scheduleAutoplayInternal]
  split
  case isTrue hguard =>
    split
    · exact inv_of_count_zero s h0
    · split
      · exact inv_of_count_zero s h0
      · split
        case isTrue =>
          refine ⟨?_, ?_, ?_⟩
          · have hnil : (s.pending.filter fun t => isAutoplayTimer t.kind) = [] := by
              rw [autoplayTimersPending, List.length_eq_zero] at h0
              exact h0
            simp only [autoplayTimersPending, schedule, List.filter_append, hnil]
            simp [isAutoplayTimer]
          · intro t ht hk
            simp only [schedule, List.mem_append, List.mem_singleton] at ht
            rcases ht with ht | ht
            · exact absurd ((autoplayTimersPending_eq_zero s).mp h0 t ht) (by simp [hk])
            · subst ht; rfl
          · intro hp
            exact absurd hp (by simpa using hguard.2.2.1)
        case isFalse => exact inv_of_count_zero s h0
  case isFalse => exact inv_of_count_zero s h0

end PointyM

namespace PointyM

set_option maxHeartbeats 1000000 in
/-- C3 (amended): the operations that cancel the stored autoplay timer
before (possibly) scheduling a new one — `stopAutoplay`, `pauseAutoplay`,
`resumeAutoplay` and `setAutoplayInterval` — preserve the at-most-one
pending-autoplay-timer invariant.  (`startAutoplay` is the exception, see
the counterexample: `_scheduleAutoplay` itself never cancels.) -/
theorem autoplay_cancel_before_schedule_preserves_inv (s : PointyState) (i : Option Nat)
    (h : AutoplayInv s) :
    AutoplayInv (stopAutoplay s) ∧ AutoplayInv (pauseAutoplay s) ∧
      AutoplayInv (resumeAutoplay s) ∧ AutoplayInv (setAutoplayInterval s i) := by
  refine ⟨?_, ?_, ?_, ?_⟩
  · simp only [stopAutoplay]
    apply inv_of_count_zero
    simpa [autoplayTimersPending, emitN] using (stopAutoplayTimer_clears s h.2.1).1
  · simp only [pauseAutoplay]
    apply inv_of_count_zero
    simpa [autoplayTimersPending, emitN] using (stopAutoplayTimer_clears s h.2.1).1
  · by_cases hp : s.autoplayPaused = true
    · have h0 : autoplayTimersPending s = 0 := h.2.2 hp
      simp only [resumeAutoplay, hp, not_true, if_false]
      apply scheduleAutoplayInternal_inv
      simpa [autoplayTimersPending, emitN] using h0
    · simp only [resumeAutoplay]
      rw [if_pos (by simpa using hp)]
      exact h
  · by_cases he : s.autoplay = i
    · simp only [setAutoplayInterval]
      rw [if_pos he]
      exact h
    · simp only [setAutoplayInterval]
      rw [if_neg he]
      have htr : ∀ t ∈ (emitN { s with autoplay := i } "autoplayChange").pending,
          isAutoplayTimer t.kind = true →
          (emitN { s with autoplay := i } "autoplayChange").autoplayTimeoutId = some t.id :=
        h.2.1
      split
      · exact scheduleAutoplayInternal_inv _
          (stopAutoplayTimer_clears (emitN { s with autoplay := i } "autoplayChange") htr).1
      · split
        · apply inv_of_count_zero
          simpa [autoplayTimersPending, emitN] using
            (stopAutoplayTimer_clears (emitN { s with autoplay := i } "autoplayChange") htr).1
        · exact h

/-- Closed instance of the amended C3 theorem at a freshly constructed
instance (whose timer queue is empty). -/
theorem autoplay_cancel_before_schedule_preserves_inv_witness :
    AutoplayInv (mkPointy {}) ∧
      (AutoplayInv (stopAutoplay (mkPointy {})) ∧ AutoplayInv (pauseAutoplay (mkPointy {})) ∧
        AutoplayInv (resumeAutoplay (mkPointy {})) ∧
        AutoplayInv (setAutoplayInterval (mkPointy {}) (some 5))) :=
  ⟨by simp only [AutoplayInv, autoplayTimersPending]; decide,
    autoplay_cancel_before_schedule_preserves_inv (mkPointy {}) (some 5)
      (by simp only [AutoplayInv, autoplayTimersPending]; decide)⟩

/-- C3 (counterexample): two consecutive `startAutoplay()` calls on a
visible instance leave two autoplay timeouts pending — `_scheduleAutoplay`
only overwrites the stored id (which ends up naming the second timer). -/
theorem double_startAutoplay_two_pending :
    autoplayTimersPending (startAutoplay (startAutoplay c3base)) = 2 ∧
    (startAutoplay (startAutoplay c3base)).autoplayTimeoutId = some 3 := by
  constructor
  · simp only [autoplayTimersPending]
    decide
  · decide

end PointyM

namespace PointyM

lemma reset_animationDuration (s : PointyState) (g : Bool) :
    (reset s g).animationDuration = s.animationDuration := by
  simp only [reset]
  cases h1 : s.hideOnCompleteTimeoutId <;> cases h2 : s.moveTimeoutId <;>
    cases h3 : s.steps.head? <;>
    simp [h1, h2, h3, emitN_animationDuration, emitN_hideOnCompleteTimeoutId, emitN_moveTimeoutId,
      emitN_steps, stopMessageCycleInternal_animationDuration,
      stopMessageCycleInternal_hideOnCompleteTimeoutId, stopMessageCycleInternal_moveTimeoutId,
      stopMessageCycleInternal_steps, clearTimer_animationDuration,
      clearTimer_hideOnCompleteTimeoutId, clearTimer_moveTimeoutId, clearTimer_steps,
      scheduleFst_animationDuration, apply_ite PointyState.animationDuration]

lemma reset_hideOnCompleteDelay (s : PointyState) (g : Bool) :
    (reset s g).hideOnCompleteDelay = s.hideOnCompleteDelay := by
  simp only [reset]
  cases h1 : s.hideOnCompleteTimeoutId <;> cases h2 : s.moveTimeoutId <;>
    cases h3 : s.steps.head? <;>
    simp [h1, h2, h3, emitN_hideOnCompleteDelay, emitN_hideOnCompleteTimeoutId, emitN_moveTimeoutId,
      emitN_steps, stopMessageCycleInternal_hideOnCompleteDelay,
      stopMessageCycleInternal_hideOnCompleteTimeoutId, stopMessageCycleInternal_moveTimeoutId,
      stopMessageCycleInternal_steps, clearTimer_hideOnCompleteDelay,
      clearTimer_hideOnCompleteTimeoutId, clearTimer_moveTimeoutId, clearTimer_steps,
      scheduleFst_hideOnCompleteDelay, apply_ite PointyState.hideOnCompleteDelay]

lemma reset_hideOnComplete (s : PointyState) (g : Bool) :
    (reset s g).hideOnComplete = s.hideOnComplete := by
  simp only [reset]
  cases h1 : s.hideOnCompleteTimeoutId <;> cases h2 : s.moveTimeoutId <;>
    cases h3 : s.steps.head? <;>
    simp [h1, h2, h3, emitN_hideOnComplete, emitN_hideOnCompleteTimeoutId, emitN_moveTimeoutId,
      emitN_steps, stopMessageCycleInternal_hideOnComplete,
      stopMessageCycleInternal_hideOnCompleteTimeoutId, stopMessageCycleInternal_moveTimeoutId,
      stopMessageCycleInternal_steps, clearTimer_hideOnComplete,
      clearTimer_hideOnCompleteTimeoutId, clearTimer_moveTimeoutId, clearTimer_steps,
      scheduleFst_hideOnComplete, apply_ite PointyState.hideOnComplete]

lemma scheduled_hide_mem (x : PointyState) (hd : Nat) (src : Source) (d : Nat) :
    ∃ t ∈ (schedule x (.hideOnCompleteFire hd src) d).1.pending,
      (schedule x (.hideOnCompleteFire hd src) d).2 = t.id ∧
      t.kind = TimerKind.hideOnCompleteFire hd src ∧ t.delay = d := by
  refine ⟨{ id := x.nextTimerId, kind := .hideOnCompleteFire hd src, delay := d }, ?_, rfl, rfl, rfl⟩
  simp [schedule]

end PointyM

namespace PointyM

set_option maxHeartbeats 2000000 in
/-- C4: `next()` on the last step with `hideOnComplete` schedules the
auto-hide timer after `animationDuration + hideDelay` when `resetOnComplete`
is set and after `hideDelay` alone otherwise, where `hideDelay` is the
configured `hideOnCompleteDelay` if non-null and `animationDuration`
otherwise; the `autoHide` payload the timer will emit carries `source`
`autoplay` exactly when autoplay was active at completion. -/
theorem next_on_last_step_schedules_auto_hide (env : Env) (s : PointyState)
    (h1 : s.steps ≠ []) (h2 : s.currentStepIndex = s.steps.length - 1)
    (h3 : s.hideOnComplete = true) :
    ∃ t ∈ (next env s).pending,
      (next env s).hideOnCompleteTimeoutId = some t.id ∧
      t.kind = TimerKind.hideOnCompleteFire (s.hideOnCompleteDelay.getD s.animationDuration)
          (if truthyN s.autoplay && s.autoplayEnabled && !s.autoplayPaused then Source.autoplay
            else Source.manual) ∧
      t.delay = if s.resetOnComplete then
          s.animationDuration + s.hideOnCompleteDelay.getD s.animationDuration
        else s.hideOnCompleteDelay.getD s.animationDuration := by
  have hlen0 : s.steps.length ≠ 0 := by simpa [List.length_eq_zero] using h1
  have hlt : ¬ ((s.currentStepIndex : Int) < (s.steps.length : Int) - 1) := by omega
  simp only [next]
  rw [if_neg hlen0, if_neg hlt]
  by_cases hwa : (truthyN s.autoplay && s.autoplayEnabled && !s.autoplayPaused) = true <;>
    by_cases hrc : s.resetOnComplete = true <;>
      simp [hwa, hrc, h3, emitN_resetOnComplete, emitN_hideOnComplete, emitN_hideOnCompleteDelay,
        emitN_animationDuration, emitN_autoplay, emitN_autoplayEnabled, emitN_autoplayPaused,
        stopAutoplayTimer_resetOnComplete, stopAutoplayTimer_hideOnComplete,
        stopAutoplayTimer_hideOnCompleteDelay, stopAutoplayTimer_animationDuration,
        reset_hideOnComplete, reset_hideOnCompleteDelay, reset_animationDuration] <;>
      exact scheduled_hide_mem _ _ _ _

end PointyM

namespace PointyM

/-- Closed instance of the C4 theorem at the concrete last-step state
`c4s` (autoplay active, `hideOnCompleteDelay = 200`, `resetOnComplete`). -/
theorem next_on_last_step_schedules_auto_hide_witness :
    c4s.steps ≠ [] ∧ c4s.currentStepIndex = c4s.steps.length - 1 ∧
      c4s.hideOnComplete = true ∧
      ∃ t ∈ (next env0 c4s).pending,
        (next env0 c4s).hideOnCompleteTimeoutId = some t.id ∧
        t.kind = TimerKind.hideOnCompleteFire
            (c4s.hideOnCompleteDelay.getD c4s.animationDuration)
            (if truthyN c4s.autoplay && c4s.autoplayEnabled && !c4s.autoplayPaused then
              Source.autoplay else Source.manual) ∧
        t.delay = if c4s.resetOnComplete then
            c4s.animationDuration + c4s.hideOnCompleteDelay.getD c4s.animationDuration
          else c4s.hideOnCompleteDelay.getD c4s.animationDuration :=
  ⟨by decide, by decide, by decide,
    next_on_last_step_schedules_auto_hide env0 c4s (by decide) (by decide) (by decide)⟩

lemma directionStep_keep_of_short (up : Bool) (hist0 : List (Int × Nat))
    (lastChange : Nat) (y : Int) (now : Nat)
    (h : ((hist0 ++ [(y, now)]).filter (fun p => now - p.2 < 200)).length < 2) :
    (directionStep up hist0 lastChange y now).1 = up := by
  unfold directionStep
  rw [if_neg (by omega)]

lemma directionStep_flip_conditions (up : Bool) (hist0 : List (Int × Nat))
    (lastChange : Nat) (y : Int) (now : Nat)
    (h : (directionStep up hist0 lastChange y now).1 ≠ up) :
    2 ≤ ((hist0 ++ [(y, now)]).filter (fun p => now - p.2 < 200)).length ∧
      30 < ((((hist0 ++ [(y, now)]).filter (fun p => now - p.2 < 200)).getLastD (y, now)).1 -
        (((hist0 ++ [(y, now)]).filter (fun p => now - p.2 < 200)).headD (y, now)).1).natAbs ∧
      300 < now - lastChange := by
  unfold directionStep at h
  simp only [] at h
  split at h
  case isTrue h2 =>
    split at h
    case isTrue hcond =>
      split at h
      · exact ⟨h2, hcond.1, hcond.2⟩
      · exact absurd rfl h
    case isFalse hcond => exact absurd rfl h
  case isFalse h2 => exact absurd rfl h

/-- C5: direction inference of `updatePosition`.  With a manual direction
set, `isPointingUp` is exactly `manualDirection === 'up'` and no sample is
taken.  In automatic mode: with fewer than two retained samples the
previous direction is kept; and a direction flip can only happen when the
window displacement `newest.y - oldest.y` exceeds 30px in absolute value
and more than 300ms have passed since the last direction change. -/
theorem updatePosition_direction_inference (env : Env) (s : PointyState) :
    (∀ d, s.targetElement.isSome = true → s.manualDirection = some d →
      (updatePositionS env s).isPointingUp = (d == Dir.up)) ∧
    (s.targetElement.isSome = true → s.manualDirection = none →
      (retainedHistory s env).length < 2 →
      (updatePositionS env s).isPointingUp = s.isPointingUp) ∧
    (s.targetElement.isSome = true → s.manualDirection = none →
      (updatePositionS env s).isPointingUp ≠ s.isPointingUp →
      2 ≤ (retainedHistory s env).length ∧
        30 < (((retainedHistory s env).getLastD (env.targetY, env.now)).1 -
          ((retainedHistory s env).headD (env.targetY, env.now)).1).natAbs ∧
        300 < env.now - s.lastDirectionChangeTime) := by
  refine ⟨?_, ?_, ?_⟩
  · intro d htgt hman
    cases ht : s.targetElement with
    | none => rw [ht] at htgt; simp at htgt
    | some tg => simp [updatePositionS, ht, hman]
  · intro htgt hman hshort
    cases ht : s.targetElement with
    | none => rw [ht] at htgt; simp at htgt
    | some tg =>
      simp only [updatePositionS, ht, hman]
      exact directionStep_keep_of_short _ _ _ _ _ hshort
  · intro htgt hman hflip
    cases ht : s.targetElement with
    | none => rw [ht] at htgt; simp at htgt
    | some tg =>
      simp only [updatePositionS, ht, hman] at hflip
      exact directionStep_flip_conditions _ _ _ _ _ hflip

end PointyM

namespace PointyM

lemma forEachTryCatch_eq (hs : List Handler) :
    forEachTryCatch hs =
      (hs.map Handler.id, (hs.filter Handler.throws).map Handler.id) := by
  induction hs with
  | nil => rfl
  | cons hd tl ih =>
    by_cases hth : hd.throws <;>
      simp [forEachTryCatch, execHandler, hth, ih]

lemma emitDispatch_fst (L : Listeners) (event : String) :
    (emitDispatch L event).1 =
      (L event).map Handler.id ++
        (match getEventGroup event with
          | some g => (L g).map Handler.id
          | none => []) ++
        (L "*").map Handler.id ++ (L "all").map Handler.id := by
  unfold emitDispatch
  cases hg : getEventGroup event <;> simp [forEachTryCatch_eq, hg]

lemma emitDispatch_snd (L : Listeners) (event : String) :
    (emitDispatch L event).2 =
      ((L event).filter Handler.throws).map Handler.id ++
        (match getEventGroup event with
          | some g => ((L g).filter Handler.throws).map Handler.id
          | none => []) ++
        ((L "*").filter Handler.throws).map Handler.id ++
        ((L "all").filter Handler.throws).map Handler.id := by
  unfold emitDispatch
  cases hg : getEventGroup event <;> simp [forEachTryCatch_eq, hg]

/-- C7: `_emit` delivers synchronously in the fixed order exact-name
subscribers, then the containing group's subscribers, then the `*` and
`all` wildcard subscribers; the invoked list is the full concatenation of
those segments regardless of which handlers throw (so a throwing handler
never prevents delivery to a later handler, nor aborts the dispatch), and
every thrown error is logged, in order, rather than re-thrown. -/
theorem emit_dispatch_order_and_isolation (L : Listeners) (event : String) :
    (emitDispatch L event).1 =
      (L event).map Handler.id ++
        (match getEventGroup event with
          | some g => (L g).map Handler.id
          | none => []) ++
        (L "*").map Handler.id ++ (L "all").map Handler.id ∧
    (emitDispatch L event).2 =
      ((L event).filter Handler.throws).map Handler.id ++
        (match getEventGroup event with
          | some g => ((L g).filter Handler.throws).map Handler.id
          | none => []) ++
        ((L "*").filter Handler.throws).map Handler.id ++
        ((L "all").filter Handler.throws).map Handler.id :=
  ⟨emitDispatch_fst L event, emitDispatch_snd L event⟩

/-- C10: group-dispatch precedence of `getEventGroup`.  The explicitly
listed `*Change` events resolve to their explicit groups (`tracking`,
`autoplay`), not to `config`; `config` is returned exactly for the names
that end in `Change` and appear in no explicit group list; and dispatching
`targetChange` consults the `tracking` group's subscribers (so
`config`-group subscribers never receive it). -/
theorem event_group_precedence :
    getEventGroup "targetChange" = some "tracking" ∧
    getEventGroup "trackingChange" = some "tracking" ∧
    getEventGroup "trackingFpsChange" = some "tracking" ∧
    getEventGroup "autoplayChange" = some "autoplay" ∧
    getEventGroup "autoplayWaitForMessagesChange" = some "autoplay" ∧
    (∀ e, getEventGroup e = some "config" ↔
      (endsWithChange e = true ∧ ∀ p ∈ EVENT_GROUPS, e ∉ p.2)) ∧
    (∀ L : Listeners, (emitDispatch L "targetChange").1 =
      (L "targetChange").map Handler.id ++ (L "tracking").map Handler.id ++
        (L "*").map Handler.id ++ (L "all").map Handler.id) := by
  refine ⟨by decide, by decide, by decide, by decide, by decide, ?_, ?_⟩
  · intro e
    constructor
    · intro h
      unfold getEventGroup at h
      cases hf : EVENT_GROUPS.find? (fun p => p.2.contains e) with
      | some p =>
        rw [hf] at h
        have hp : p ∈ EVENT_GROUPS := List.mem_of_find?_eq_some hf
        have hnc : ∀ q ∈ EVENT_GROUPS, q.1 ≠ "config" := by decide
        exact absurd (by simpa using h) (hnc p hp)
      | none =>
        rw [hf] at h
        by_cases he : endsWithChange e = true
        · refine ⟨he, ?_⟩
          intro p hp hmem
          have hnc := List.find?_eq_none.mp hf p hp
          exact hnc (by simpa [List.elem_iff] using hmem)
        · simp [he] at h
    · rintro ⟨he, hnone⟩
      unfold getEventGroup
      have hf : EVENT_GROUPS.find? (fun p => p.2.contains e) = none := by
        rw [List.find?_eq_none]
        intro p hp
        simpa [List.elem_iff] using hnone p hp
      rw [hf]
      simp [he]
  · intro L
    rw [emitDispatch_fst L "targetChange"]
    rfl

end PointyM
